import Mathlib

/-!
# Session controller of `app/static/js/main.js`

A shallow embedding of the browser-side session logic: the two script-level
variables `currentUser` and `authToken`, the `authToken` entry of
`localStorage`, the part of the document the handlers read and write, and the
functions `checkAuth`, `handleLogin`, `handleRegister`, `logout`, `apiRequest`
together with the helpers they call.

Conventions of the embedding.

* JavaScript values are the type `JsVal`; `truthy`, `getProp` and `toJsString`
  follow ECMAScript on those values. In particular the conversion of a value
  to a string throws on an object that has a property `toString` of its own,
  and the embedding lets that throw surface wherever the script converts:
  template literals, `localStorage.setItem` and `textContent`.
* `fetch` is a parameter `net : Net`, giving for every request either a
  rejection or a response (status and parsed body; `none` is a body that
  `response.json()` cannot parse).
* An `async` function is run to completion; a function that can throw returns
  `Except JsError α × State`, the state being the one left behind at the throw.
* Effects that leave the page (assignments to `window.location.href`, timers,
  alerts, requests) are appended to logs kept in the state.
* `console.log` / `console.error`, `e.preventDefault()` and the listeners
  attached to buttons have no effect on the modelled state and are left out.
-/

namespace BlogSession

/-! ## JavaScript values -/

/-- A JavaScript value as the handlers can observe it: `undefined` or a JSON
value. A number is given by the text JavaScript prints for it, `0` standing
for both zeros; an object is its list of own properties, keys distinct. -/
inductive JsVal where
  | undefined : JsVal
  | null : JsVal
  | bool (b : Bool) : JsVal
  | num (text : String) : JsVal
  | str (s : String) : JsVal
  | arr (items : List JsVal) : JsVal
  | obj (props : List (String × JsVal)) : JsVal
  deriving Repr

/-- What a thrown value can be in this script. -/
inductive JsError where
  /-- The result of `new Error(message)`. -/
  | error (message : String) : JsError
  /-- Reading or writing a property of `null` / `undefined`. -/
  | typeError : JsError
  /-- Thrown by `response.json()` on a body that is not JSON. -/
  | syntaxError : JsError
  /-- The rejection of `fetch` when no response is received. -/
  | networkError : JsError
  deriving Repr, DecidableEq

/-- ECMAScript `ToBoolean`. -/
def JsVal.truthy : JsVal → Bool
  | .undefined => false
  | .null => false
  | .bool b => b
  | .num text => text != "0"
  | .str s => s != ""
  | .arr _ => true
  | .obj _ => true

/-- The test `v == null`: true of `null` and `undefined` only. -/
def JsVal.isNullish : JsVal → Bool
  | .undefined => true
  | .null => true
  | _ => false

mutual
/-- ECMAScript `ToString`, as used by template literals, by
`localStorage.setItem` and by `textContent`. An object parsed from JSON has no
callable `toString` of its own: when it has the key `toString` the conversion
finds nothing to call that yields a primitive and throws a `TypeError`,
otherwise `Object.prototype.toString` answers. -/
def JsVal.toJsString : JsVal → Except JsError String
  | .undefined => .ok "undefined"
  | .null => .ok "null"
  | .bool true => .ok "true"
  | .bool false => .ok "false"
  | .num text => .ok text
  | .str s => .ok s
  | .arr items => joinItems items
  | .obj props =>
    if (props.lookup "toString").isSome then .error .typeError else .ok "[object Object]"
/-- The text of `Array.prototype.join` with separator `,`: `null` and
`undefined` items print as the empty string, every other item is converted. -/
def joinItems : List JsVal → Except JsError String
  | [] => .ok ""
  | [x] => (match x with
      | .null => .ok ""
      | .undefined => .ok ""
      | y => JsVal.toJsString y)
  | x :: y :: rest =>
    match ((match x with
      | .null => .ok ""
      | .undefined => .ok ""
      | z => JsVal.toJsString z) : Except JsError String) with
    | .error e => .error e
    | .ok first =>
      match joinItems (y :: rest) with
      | .error e => .error e
      | .ok others => .ok (first ++ "," ++ others)
end

/-- The property read `v.key` for the keys the script uses (`id`,
`access_token`, `detail`): a `TypeError` on `null` / `undefined`, the stored
value on an object that has the key, `undefined` otherwise. -/
def JsVal.getProp (v : JsVal) (key : String) : Except JsError JsVal :=
  match v with
  | .undefined => .error .typeError
  | .null => .error .typeError
  | .obj props =>
    match props.lookup key with
    | some x => .ok x
    | none => .ok .undefined
  | _ => .ok .undefined

/-! ## Requests and responses -/

/-- A plain headers object: its own properties in insertion order. -/
abbrev Headers := List (String × String)

/-- The assignment `headers[key] = value` on a plain object: an existing
property keeps its place and takes the new value, a new one is added last. -/
def setHeader : Headers → String → String → Headers
  | [], key, value => [(key, value)]
  | (k, v) :: rest, key, value =>
    if k = key then (k, value) :: rest else (k, v) :: setHeader rest key value

/-- The object literal `{ ...base, ...extra }`: the properties of `extra` are
assigned onto `base` one after the other. -/
def spreadHeaders (base extra : Headers) : Headers :=
  extra.foldl (fun acc p => setHeader acc p.1 p.2) base

/-- The value of property `key` of a headers object. -/
def getHeader : Headers → String → Option String
  | [], _ => none
  | (k, v) :: rest, key => if k = key then some v else getHeader rest key

/-- The `body` of a request, as the script builds it. -/
inductive Body where
  /-- A `URLSearchParams` with the appended pairs. -/
  | form (fields : List (String × String)) : Body
  /-- The text `JSON.stringify(value)`. -/
  | json (value : JsVal) : Body
  /-- Any other body supplied by a caller of `apiRequest`. -/
  | text (s : String) : Body
  deriving Repr

/-- The `options` argument of `apiRequest`: its `headers` property when it has
one, and the other properties that `fetch` reads. -/
structure Options where
  headers : Option Headers
  method : Option String
  body : Option Body
  deriving Repr

/-- The arguments of one call of `fetch`. -/
structure Request where
  url : String
  method : Option String
  headers : Headers
  body : Option Body
  deriving Repr

/-- A response: its status and the value `response.json()` resolves to, `none`
when the body does not parse. -/
structure Response where
  status : Nat
  body : Option JsVal
  deriving Repr

/-- The getter `response.ok`: the status is in the range 200 to 299. -/
def Response.ok (r : Response) : Bool :=
  decide (200 ≤ r.status) && decide (r.status ≤ 299)

/-- The call `await response.json()`. -/
def Response.json (r : Response) : Except JsError JsVal :=
  match r.body with
  | some v => .ok v
  | none => .error .syntaxError

/-- The outcome of `await fetch(...)`. -/
inductive FetchResult where
  | rejected : FetchResult
  | fulfilled (response : Response) : FetchResult
  deriving Repr

/-- The network and the server behind it. -/
abbrev Net := Request → FetchResult

/-! ## The page -/

/-- What the `.nav` element shows. -/
inductive Nav where
  /-- The markup the server delivered. -/
  | page : Nav
  /-- The markup written by `updateNavForGuest`. -/
  | guest : Nav
  /-- The markup written by `updateNavForUser`; the profile link ends in the
  text of `currentUser.id`. -/
  | user (profileId : String) : Nav
  deriving Repr, DecidableEq

/-- What a timer set by the script will do. -/
inductive TimerAction where
  | reloadPage : TimerAction
  | openModal (modalId : String) : TimerAction
  /-- Fade and remove the alert with this index in the alert log. -/
  | fadeAlert (index : Nat) : TimerAction
  deriving Repr, DecidableEq

/-- The elements of the document the script looks up. -/
structure Dom where
  /-- The element matching `.nav`, when the page has one. -/
  nav : Option Nav
  /-- The modal elements by id, with whether each carries the class `active`. -/
  modals : List (String × Bool)
  /-- The `value` of each input, when the page has the input. -/
  loginUsername : Option String
  loginPassword : Option String
  registerEmail : Option String
  registerUsername : Option String
  registerPassword : Option String
  deriving Repr

/-- The state the script runs on. -/
structure State where
  /-- The script variable `currentUser`. -/
  currentUser : JsVal
  /-- The script variable `authToken`. -/
  authToken : JsVal
  /-- The property `window.currentUser`. -/
  winCurrentUser : JsVal
  /-- The property `window.authToken`. -/
  winAuthToken : JsVal
  /-- The entry `authToken` of `localStorage`. -/
  storage : Option String
  dom : Dom
  /-- The calls of `showAlert`: message and type, oldest first. -/
  alerts : List (JsVal × String)
  /-- The calls of `setTimeout`: action and delay, oldest first. -/
  timers : List (TimerAction × Nat)
  /-- The values assigned to `window.location.href`, oldest first. -/
  hrefs : List String
  /-- The calls of `fetch`, oldest first. -/
  requests : List Request
  deriving Repr

/-- The state when the script has been loaded (lines 4, 5, 282, 283):
`stored` is what `localStorage.getItem('authToken')` finds. -/
def initState (stored : Option String) (dom : Dom) : State :=
  let token : JsVal := match stored with
    | some t => .str t
    | none => .null
  { currentUser := .null
    authToken := token
    winCurrentUser := .null
    winAuthToken := token
    storage := stored
    dom := dom
    alerts := []
    timers := []
    hrefs := []
    requests := [] }

/-! ## Modal and alert helpers -/

/-- Set the `active` flag of the first element with the given id, if any. -/
def setActive : List (String × Bool) → String → Bool → List (String × Bool)
  | [], _, _ => []
  | (i, a) :: rest, modalId, b =>
    if i = modalId then (i, b) :: rest else (i, a) :: setActive rest modalId b

/-- The function `openModal(modalId)`. -/
def openModal (modalId : String) (s : State) : State :=
  { s with dom := { s.dom with modals := setActive s.dom.modals modalId true } }

/-- The function `closeModal(modalId)`. -/
def closeModal (modalId : String) (s : State) : State :=
  { s with dom := { s.dom with modals := setActive s.dom.modals modalId false } }

/-- Lines 236 to 249 of `showAlert`: the alert is added to the page and a timer
of 3000 ms is set to fade it. -/
def appendAlert (message : JsVal) (type : String) (s : State) : State :=
  { s with
    alerts := s.alerts ++ [(message, type)]
    timers := s.timers ++ [(TimerAction.fadeAlert s.alerts.length, 3000)] }

/-- The function `showAlert(message, type)`. The assignment to `textContent`
(line 235) converts the message to a string and throws when that conversion
does, before the alert is added to the page. -/
def showAlert (message : JsVal) (type : String) (s : State) : Except JsError Unit × State :=
  match message.toJsString with
  | .error e => (.error e, s)
  | .ok _ => (.ok (), appendAlert message type s)

/-! ## Navigation and logout -/

/-- The function `updateNavForGuest()`: writes the guest markup when the page
has a `.nav` element. -/
def updateNavForGuest (s : State) : State :=
  { s with dom := { s.dom with nav := s.dom.nav.map (fun _ => Nav.guest) } }

/-- The function `updateNavForUser()`: when the page has a `.nav` element the
template reads `currentUser.id`, which throws on a `null` user, converts it to
a string, which throws on an id that has no string form, and then writes the
user markup. -/
def updateNavForUser (s : State) : Except JsError Unit × State :=
  match s.dom.nav with
  | none => (.ok (), s)
  | some _ =>
    match s.currentUser.getProp "id" with
    | .error e => (.error e, s)
    | .ok id =>
      match id.toJsString with
      | .error e => (.error e, s)
      | .ok text => (.ok (), { s with dom := { s.dom with nav := some (Nav.user text) } })

/-- The function `logout()`. -/
def logout (s : State) : State :=
  let s1 := { s with
    authToken := JsVal.null
    currentUser := JsVal.null
    winAuthToken := JsVal.null
    winCurrentUser := JsVal.null
    storage := none }
  let s2 := updateNavForGuest s1
  { s2 with hrefs := s2.hrefs ++ ["/"] }

/-! ## The operations that talk to the server -/

/-- Record a call of `fetch`. -/
def logRequest (req : Request) (s : State) : State :=
  { s with requests := s.requests ++ [req] }

/-- The request `checkAuth` sends when the text of `authToken` is `bearer`. -/
def meRequest (bearer : String) : Request :=
  { url := "/api/v1/auth/me"
    method := none
    headers := [("Authorization", "Bearer " ++ bearer)]
    body := none }

/-- The function `checkAuth()`. Every throw inside its `try` is caught and
answered by `logout()`, so the function itself never throws; the first thing
that can throw there is the template literal that builds the header. -/
def checkAuth (net : Net) (s : State) : State :=
  if !s.authToken.truthy then
    updateNavForGuest s
  else
    match s.authToken.toJsString with
    | .error _ => logout s
    | .ok bearer =>
      let s1 := logRequest (meRequest bearer) s
      match net (meRequest bearer) with
      | .rejected => logout s1
      | .fulfilled response =>
        if response.ok then
          match response.json with
          | .error _ => logout s1
          | .ok user =>
            let s2 := { s1 with
              currentUser := user
              winCurrentUser := user
              winAuthToken := s1.authToken }
            match updateNavForUser s2 with
            | (.ok _, s3) => s3
            | (.error _, s3) => logout s3
        else
          logout s1

/-- The request `handleLogin` sends. -/
def loginRequest (username password : String) : Request :=
  { url := "/api/v1/auth/login"
    method := some "POST"
    headers := [("Content-Type", "application/x-www-form-urlencoded")]
    body := some (Body.form [("username", username), ("password", password)]) }

/-- The `try` block of `handleLogin` (lines 108 to 135). The token is
assigned to `authToken` before `localStorage.setItem` converts it, so a token
without a string form stays in `authToken` when the conversion throws. -/
def handleLoginTry (net : Net) (username password : String) (s : State) :
    Except JsError Unit × State :=
  let s1 := logRequest (loginRequest username password) s
  match net (loginRequest username password) with
  | .rejected => (.error .networkError, s1)
  | .fulfilled response =>
    if response.ok then
      match response.json with
      | .error e => (.error e, s1)
      | .ok data =>
        match data.getProp "access_token" with
        | .error e => (.error e, s1)
        | .ok token =>
          let s2 := { s1 with authToken := token }
          match token.toJsString with
          | .error e => (.error e, s2)
          | .ok text =>
            let s3 := { s2 with storage := some text, winAuthToken := token }
            let s4 := checkAuth net s3
            let s5 := closeModal "loginModal" s4
            match showAlert (.str "Успешный вход! 💕") "success" s5 with
            | (.error e, s6) => (.error e, s6)
            | (.ok _, s6) =>
              (.ok (), { s6 with timers := s6.timers ++ [(TimerAction.reloadPage, 500)] })
    else
      match response.json with
      | .error e => (.error e, s1)
      | .ok error =>
        match error.getProp "detail" with
        | .error e => (.error e, s1)
        | .ok detail =>
          showAlert (if detail.truthy then detail else .str "Ошибка входа") "error" s1

/-- The function `handleLogin(e)`. The two inputs are read before the `try`,
so a page without them makes the handler throw; whatever is thrown inside the
`try` is caught and reported as a connection error. -/
def handleLogin (net : Net) (s : State) : Except JsError Unit × State :=
  match s.dom.loginUsername, s.dom.loginPassword with
  | some username, some password =>
    match handleLoginTry net username password s with
    | (.ok _, s1) => (.ok (), s1)
    | (.error _, s1) => showAlert (.str "Ошибка подключения") "error" s1
  | _, _ => (.error .typeError, s)

/-- The request `handleRegister` sends. -/
def registerRequest (email username password : String) : Request :=
  { url := "/api/v1/auth/register"
    method := some "POST"
    headers := [("Content-Type", "application/json")]
    body := some (Body.json (.obj
      [("email", .str email), ("username", .str username), ("password", .str password)])) }

/-- The `try` block of `handleRegister` (lines 150 to 168). -/
def handleRegisterTry (net : Net) (email username password : String) (s : State) :
    Except JsError Unit × State :=
  let s1 := logRequest (registerRequest email username password) s
  match net (registerRequest email username password) with
  | .rejected => (.error .networkError, s1)
  | .fulfilled response =>
    if response.ok then
      let s2 := closeModal "registerModal" s1
      match showAlert (.str "Регистрация успешна! Теперь войдите в систему 🎉") "success" s2 with
      | (.error e, s3) => (.error e, s3)
      | (.ok _, s3) =>
        match s3.dom.loginUsername with
        | none => (.error .typeError, s3)
        | some _ =>
          let s4 := { s3 with dom := { s3.dom with loginUsername := some username } }
          (.ok (),
            { s4 with timers := s4.timers ++ [(TimerAction.openModal "loginModal", 1000)] })
    else
      match response.json with
      | .error e => (.error e, s1)
      | .ok error =>
        match error.getProp "detail" with
        | .error e => (.error e, s1)
        | .ok detail =>
          showAlert (if detail.truthy then detail else .str "Ошибка регистрации") "error" s1

/-- The function `handleRegister(e)`. -/
def handleRegister (net : Net) (s : State) : Except JsError Unit × State :=
  match s.dom.registerEmail, s.dom.registerUsername, s.dom.registerPassword with
  | some email, some username, some password =>
    match handleRegisterTry net email username password s with
    | (.ok _, s1) => (.ok (), s1)
    | (.error _, s1) => showAlert (.str "Ошибка подключения") "error" s1
  | _, _, _ => (.error .typeError, s)

/-- The headers object `apiRequest` builds (lines 254 to 261); the template
literal throws on a token without a string form. -/
def apiHeaders (options : Options) (authToken : JsVal) : Except JsError Headers :=
  let headers := spreadHeaders [("Content-Type", "application/json")] (options.headers.getD [])
  if authToken.truthy then
    match authToken.toJsString with
    | .error e => .error e
    | .ok bearer => .ok (setHeader headers "Authorization" ("Bearer " ++ bearer))
  else
    .ok headers

/-- The request `apiRequest` sends, when it gets as far as sending one:
`options` with its headers replaced. -/
def apiFetchRequest (url : String) (options : Options) (s : State) : Except JsError Request :=
  match apiHeaders options s.authToken with
  | .error e => .error e
  | .ok headers =>
    .ok { url := url
          method := options.method
          headers := headers
          body := options.body }

/-- The function `apiRequest(url, options)`. It has no `try`: what is thrown
while the headers are built, and the rejection of `fetch`, reach the caller. -/
def apiRequest (net : Net) (url : String) (options : Options) (s : State) :
    Except JsError Response × State :=
  match apiFetchRequest url options s with
  | .error e => (.error e, s)
  | .ok req =>
    let s1 := logRequest req s
    match net req with
    | .rejected => (.error .networkError, s1)
    | .fulfilled response =>
      if !response.ok && response.status == 401 then
        (.error (.error "Unauthorized"), logout s1)
      else
        (.ok response, s1)

/-! ## Operations as data -/

/-- The four operations that issue a request. -/
inductive Operation where
  | checkAuth : Operation
  | handleLogin : Operation
  | handleRegister : Operation
  | apiRequest (url : String) (options : Options) : Operation
  deriving Repr

/-- The state an operation leaves behind, whether it returns or throws. -/
def Operation.run (net : Net) : Operation → State → State
  | .checkAuth, s => BlogSession.checkAuth net s
  | .handleLogin, s => (BlogSession.handleLogin net s).2
  | .handleRegister, s => (BlogSession.handleRegister net s).2
  | .apiRequest url options, s => (BlogSession.apiRequest net url options s).2

/-- The request an operation issues first in a given state, when it issues
one: `checkAuth` sends nothing without a token, the two form handlers send
nothing on a page that lacks their inputs, and neither `checkAuth` nor
`apiRequest` sends anything when the token has no string form. -/
def Operation.request : Operation → State → Option Request
  | .checkAuth, s =>
    if s.authToken.truthy then
      match s.authToken.toJsString with
      | .ok bearer => some (meRequest bearer)
      | .error _ => none
    else none
  | .handleLogin, s =>
    match s.dom.loginUsername, s.dom.loginPassword with
    | some username, some password => some (loginRequest username password)
    | _, _ => none
  | .handleRegister, s =>
    match s.dom.registerEmail, s.dom.registerUsername, s.dom.registerPassword with
    | some email, some username, some password =>
      some (registerRequest email username password)
    | _, _, _ => none
  | .apiRequest url options, s =>
    match apiFetchRequest url options s with
    | .ok req => some req
    | .error _ => none

/-- One completed call: an operation against a given network, or `logout()`. -/
inductive Call where
  | op (o : Operation) (net : Net) : Call
  | logout : Call

/-- The state a call leaves behind. -/
def Call.exec : Call → State → State
  | .op o net, s => o.run net s
  | .logout, s => BlogSession.logout s

/-- The state after a sequence of calls, each run to completion in turn. -/
def runCalls (calls : List Call) (s : State) : State :=
  calls.foldl (fun acc c => c.exec acc) s

/-! ## Sample page, user and servers -/

/-- A page with the navigation bar, both modals and all five inputs. -/
def homePage : Dom :=
  { nav := some Nav.page
    modals := [("loginModal", true), ("registerModal", false)]
    loginUsername := some "alice"
    loginPassword := some "pw"
    registerEmail := some "a@x.com"
    registerUsername := some "alice"
    registerPassword := some "pw" }

/-- The same page without a `.nav` element. -/
def barePage : Dom :=
  { homePage with nav := none }

/-- The user record of the scenario in the specification. -/
def alice : JsVal :=
  .obj [("id", .num "1"), ("username", .str "alice"), ("email", .str "a@x.com")]

/-- An authenticated session on `homePage`: token `tok123`, user `alice`. -/
def aliceSession : State :=
  { currentUser := alice
    authToken := .str "tok123"
    winCurrentUser := alice
    winAuthToken := .str "tok123"
    storage := some "tok123"
    dom := { homePage with nav := some (Nav.user "1") }
    alerts := []
    timers := []
    hrefs := []
    requests := [] }

/-- A server that answers every request with the given status and body. -/
def netStatus (status : Nat) (body : Option JsVal) : Net :=
  fun _ => FetchResult.fulfilled { status := status, body := body }

/-- A network on which every request fails. -/
def netDown : Net :=
  fun _ => FetchResult.rejected

/-- The server of the scenario: login issues `tok123`, the identity endpoint
answers `alice` to the bearer `tok123` and 401 to any other, registration
answers 201. -/
def netAlice : Net := fun req =>
  if req.url = "/api/v1/auth/login" then
    FetchResult.fulfilled { status := 200, body := some (.obj [("access_token", .str "tok123")]) }
  else if req.url = "/api/v1/auth/me" then
    if req.headers = [("Authorization", "Bearer tok123")] then
      FetchResult.fulfilled { status := 200, body := some alice }
    else
      FetchResult.fulfilled { status := 401, body := some (.obj [("detail", .str "bad token")]) }
  else
    FetchResult.fulfilled { status := 201, body := some (.obj []) }

/-- A server whose login endpoint issues `tok123` and which answers every
other request with 500 and no body. -/
def netVerifyDown : Net := fun req =>
  if req.url = "/api/v1/auth/login" then
    FetchResult.fulfilled { status := 200, body := some (.obj [("access_token", .str "tok123")]) }
  else
    FetchResult.fulfilled { status := 500, body := none }

/-- A server whose login endpoint answers 200 with `loginBody` and which
answers every other request with 200 and `otherBody`. -/
def netLoginThen (loginBody otherBody : JsVal) : Net := fun req =>
  if req.url = "/api/v1/auth/login" then
    FetchResult.fulfilled { status := 200, body := some loginBody }
  else
    FetchResult.fulfilled { status := 200, body := some otherBody }

/-- A JSON object that has no string form: its own `toString` is the number
1, which cannot be called. -/
def unprintable : JsVal :=
  .obj [("toString", .num "1")]

/-! ## Predicates on the session -/

/-- What `logout()` leaves behind, whatever the state before it: no token and
no user in the script variables or on `window`, no stored token, and the guest
markup in the `.nav` element of a page that has one. -/
def TornDown (before after : State) : Prop :=
  after.authToken = JsVal.null ∧ after.currentUser = JsVal.null ∧
  after.winAuthToken = JsVal.null ∧ after.winCurrentUser = JsVal.null ∧
  after.storage = none ∧
  after.dom.nav = before.dom.nav.map (fun _ => Nav.guest)

/-- The session is what it was: same token, same user (script variables and
`window`), same stored token, same navigation. -/
def SessionUnchanged (before after : State) : Prop :=
  after.authToken = before.authToken ∧ after.currentUser = before.currentUser ∧
  after.winAuthToken = before.winAuthToken ∧
  after.winCurrentUser = before.winCurrentUser ∧
  after.storage = before.storage ∧
  after.dom.nav = before.dom.nav

/-- The state `Guest`: no token and no user. -/
def Guest (s : State) : Prop :=
  s.authToken.truthy = false ∧ s.currentUser.isNullish = true

/-- The state `Authenticated`: a token and a user. -/
def Authenticated (s : State) : Prop :=
  s.authToken.truthy = true ∧ s.currentUser.isNullish = false

/-- The invariant of the session: a user is present only with a token. -/
def UserImpliesToken (s : State) : Prop :=
  s.currentUser.isNullish = false → s.authToken.truthy = true

/-! ## Outcomes of a request -/

/-- The request was not answered, or was answered with a status that is not
2xx. -/
def Failed : FetchResult → Prop
  | .rejected => True
  | .fulfilled response => response.ok = false

/-- The verification fails: no response, a status that is not 2xx, or a body
that does not parse. -/
def VerifyFails : FetchResult → Prop
  | .rejected => True
  | .fulfilled response => response.ok = false ∨ response.body = none

/-- The `detail` a response carries, when it has a body that parses to a value
with a truthy `detail` property that has a string form. -/
def serverDetail : FetchResult → Option JsVal
  | .rejected => none
  | .fulfilled response =>
    match response.body with
    | none => none
    | some data =>
      match data.getProp "detail" with
      | .ok detail =>
        if detail.truthy then
          match detail.toJsString with
          | .ok _ => some detail
          | .error _ => none
        else none
      | .error _ => none

/-- The contract of the login endpoint: a 2xx response with a JSON body
carries a truthy `access_token`. -/
def LoginContract (net : Net) : Prop :=
  ∀ username password response data token,
    net (loginRequest username password) = FetchResult.fulfilled response →
    response.ok = true → response.body = some data →
    data.getProp "access_token" = Except.ok token → token.truthy = true

/-- The calls of `handleLogin` in the sequence run against a server that
keeps the contract of the login endpoint; the other calls are unconstrained. -/
def Call.keepsContract : Call → Prop
  | .op .handleLogin net => LoginContract net
  | _ => True

/-! ## Intermediate states and observations -/

/-- The state of `checkAuth` after lines 86 to 88: the request with the text
of the token is logged, the parsed body is the user, `window` mirrors both
variables. -/
def afterVerify (s : State) (bearer : String) (user : JsVal) : State :=
  { logRequest (meRequest bearer) s with
    currentUser := user
    winCurrentUser := user
    winAuthToken := s.authToken }

/-- The template of `updateNavForUser` can be written for this user: the page
has no `.nav` element, or the user is not `null` and its `id` has a string
form. -/
def NavWritable (dom : Dom) (user : JsVal) : Prop :=
  dom.nav = none ∨
  ∃ id text, user.getProp "id" = Except.ok id ∧ id.toJsString = Except.ok text

/-- The state of `handleLogin` after lines 122 to 124: the request is logged
and the issued token is in `authToken`, in storage (as `text`) and on
`window`. -/
def afterLogin (s : State) (username password : String) (token : JsVal) (text : String) :
    State :=
  { logRequest (loginRequest username password) s with
    authToken := token
    storage := some text
    winAuthToken := token }

/-- Whether the modal with the given id carries the class `active`; false when
the page has no such element. -/
def isActive : List (String × Bool) → String → Bool
  | [], _ => false
  | (i, a) :: rest, modalId => if i = modalId then a else isActive rest modalId

/-! ## Basic facts -/

theorem logout_tornDown (s : State) : TornDown s (logout s) := by
  simp [TornDown, logout, updateNavForGuest]

theorem logout_hrefs (s : State) : (logout s).hrefs = s.hrefs ++ ["/"] := by
  simp [logout, updateNavForGuest]

theorem toJsString_str (text : String) : (JsVal.str text).toJsString = Except.ok text := by
  simp [JsVal.toJsString]

theorem showAlert_str (text type : String) (s : State) :
    showAlert (JsVal.str text) type s = (Except.ok (), appendAlert (JsVal.str text) type s) := by
  simp [showAlert, JsVal.toJsString]

/-- What `showAlert` does, by whether the message has a string form. -/
theorem showAlert_cases (message : JsVal) (type : String) (s : State) :
    ((∃ text, message.toJsString = Except.ok text) ∧
      showAlert message type s = (Except.ok (), appendAlert message type s)) ∨
    ((∃ e, message.toJsString = Except.error e ∧
      showAlert message type s = (Except.error e, s))) := by
  cases h : message.toJsString with
  | error e => right; exact ⟨e, rfl, by simp [showAlert, h]⟩
  | ok text => left; exact ⟨⟨text, rfl⟩, by simp [showAlert, h]⟩

theorem appendAlert_session (message : JsVal) (type : String) (s : State) :
    SessionUnchanged s (appendAlert message type s) := by
  simp [SessionUnchanged, appendAlert]

theorem showAlert_session (message : JsVal) (type : String) (s : State) :
    SessionUnchanged s (showAlert message type s).2 := by
  rcases showAlert_cases message type s with ⟨-, h⟩ | ⟨e, -, h⟩ <;> rw [h]
  · exact appendAlert_session message type s
  · simp [SessionUnchanged]

theorem isActive_setActive_false (modals : List (String × Bool)) (modalId : String) :
    isActive (setActive modals modalId false) modalId = false := by
  induction modals with
  | nil => simp [setActive, isActive]
  | cons p rest ih =>
    obtain ⟨i, a⟩ := p
    by_cases h : i = modalId <;> simp [setActive, isActive, h, ih]

theorem getProp_ok_not_nullish (v : JsVal) (key : String) (x : JsVal)
    (h : v.getProp key = Except.ok x) : v.isNullish = false := by
  cases v <;> simp_all [JsVal.getProp, JsVal.isNullish]

theorem getProp_error_nullish (v : JsVal) (key : String) (e : JsError)
    (h : v.getProp key = Except.error e) : v.isNullish = true := by
  cases v <;> simp_all [JsVal.getProp, JsVal.isNullish]
  split at h <;> simp at h

theorem updateNavForUser_fields (s : State) :
    (updateNavForUser s).2.authToken = s.authToken ∧
    (updateNavForUser s).2.currentUser = s.currentUser ∧
    (updateNavForUser s).2.winAuthToken = s.winAuthToken ∧
    (updateNavForUser s).2.winCurrentUser = s.winCurrentUser ∧
    (updateNavForUser s).2.storage = s.storage ∧
    (updateNavForUser s).2.alerts = s.alerts ∧
    (updateNavForUser s).2.timers = s.timers ∧
    (updateNavForUser s).2.hrefs = s.hrefs ∧
    (updateNavForUser s).2.requests = s.requests ∧
    (updateNavForUser s).2.dom.modals = s.dom.modals := by
  unfold updateNavForUser
  cases hnav : s.dom.nav with
  | none => simp
  | some markup =>
    cases hid : s.currentUser.getProp "id" with
    | error e => simp [hid]
    | ok id => cases htext : id.toJsString <;> simp [hid, htext]

/-- The template of `updateNavForUser` is written without a throw exactly for
the users described by `NavWritable`; after a throw the state is untouched. -/
theorem updateNavForUser_ok_iff (s : State) :
    (updateNavForUser s).1 = Except.ok () ↔ NavWritable s.dom s.currentUser := by
  unfold updateNavForUser NavWritable
  cases hnav : s.dom.nav with
  | none => simp
  | some markup =>
    cases hid : s.currentUser.getProp "id" with
    | error e => simp [hid]
    | ok id => cases htext : id.toJsString <;> simp [hid, htext]

theorem updateNavForUser_error (s : State) (e : JsError)
    (h : (updateNavForUser s).1 = Except.error e) : (updateNavForUser s).2 = s := by
  unfold updateNavForUser at h ⊢
  cases hnav : s.dom.nav with
  | none => simp [hnav] at h
  | some markup =>
    cases hid : s.currentUser.getProp "id" with
    | error e => simp [hid]
    | ok id =>
      cases htext : id.toJsString with
      | error e => simp [hid, htext]
      | ok text => simp [hnav, hid, htext] at h

/-! ## Headers of `apiRequest` -/

theorem getHeader_setHeader (h : Headers) (key value k : String) :
    getHeader (setHeader h key value) k =
      if key = k then some value else getHeader h k := by
  induction h with
  | nil => simp [setHeader, getHeader]
  | cons p rest ih =>
    obtain ⟨k0, v0⟩ := p
    by_cases h0 : k0 = key
    · subst h0
      by_cases hk : k0 = k <;> simp [setHeader, getHeader, hk]
    · by_cases hk : key = k
      · subst hk
        simp [setHeader, getHeader, h0, ih]
      · by_cases hk0 : k0 = k
        · subst hk0
          simp [setHeader, getHeader, h0, hk]
        · simp [setHeader, getHeader, h0, hk, hk0, ih]

theorem getHeader_eq_none (h : Headers) (k : String) (hk : k ∉ h.map Prod.fst) :
    getHeader h k = none := by
  induction h with
  | nil => simp [getHeader]
  | cons p rest ih =>
    obtain ⟨k0, v0⟩ := p
    simp only [List.map_cons, List.mem_cons, not_or] at hk
    have hne : ¬ k0 = k := fun h => hk.1 h.symm
    simp [getHeader, hne, ih hk.2]

theorem getHeader_spreadHeaders (extra : Headers) (hobj : (extra.map Prod.fst).Nodup)
    (base : Headers) (k : String) :
    getHeader (spreadHeaders base extra) k =
      match getHeader extra k with
      | some v => some v
      | none => getHeader base k := by
  induction extra generalizing base with
  | nil => simp [spreadHeaders, getHeader]
  | cons p rest ih =>
    obtain ⟨k0, v0⟩ := p
    simp only [List.map_cons, List.nodup_cons] at hobj
    have hstep : spreadHeaders base ((k0, v0) :: rest) =
        spreadHeaders (setHeader base k0 v0) rest := by
      simp [spreadHeaders]
    rw [hstep, ih hobj.2, getHeader_setHeader]
    by_cases hk : k0 = k
    · subst hk
      have hnone := getHeader_eq_none rest k0 hobj.1
      simp [hnone, getHeader]
    · simp [getHeader, hk]

/-! ## Lemmas on `checkAuth` -/

theorem logout_afterVerify (s : State) (bearer : String) (user : JsVal) :
    logout (afterVerify s bearer user) = logout (logRequest (meRequest bearer) s) := by
  simp [logout, afterVerify, updateNavForGuest, logRequest]

theorem checkAuth_unprintable (net : Net) (s : State) (e : JsError)
    (htoken : s.authToken.truthy = true) (htext : s.authToken.toJsString = Except.error e) :
    checkAuth net s = logout s := by
  simp [checkAuth, htoken, htext]

/-- The ways `checkAuth` can end when a token with a string form is present:
in `logout()`, or with the parsed body of a 2xx response as the user and the
navigation rewritten, which needs a user for which the template can be
written. -/
theorem checkAuth_cases (net : Net) (s : State) (bearer : String)
    (htoken : s.authToken.truthy = true) (htext : s.authToken.toJsString = Except.ok bearer) :
    (checkAuth net s = logout (logRequest (meRequest bearer) s) ∧
      ¬ (∃ response user, net (meRequest bearer) = FetchResult.fulfilled response ∧
          response.ok = true ∧ response.body = some user ∧ NavWritable s.dom user)) ∨
    (∃ response user, net (meRequest bearer) = FetchResult.fulfilled response ∧
      response.ok = true ∧ response.body = some user ∧ NavWritable s.dom user ∧
      (updateNavForUser (afterVerify s bearer user)).1 = Except.ok () ∧
      checkAuth net s = (updateNavForUser (afterVerify s bearer user)).2) := by
  cases hnet : net (meRequest bearer) with
  | rejected =>
    left
    simp [checkAuth, htoken, htext, hnet]
  | fulfilled response =>
    cases hok : response.ok with
    | false =>
      left
      simp [checkAuth, htoken, htext, hnet, hok]
    | true =>
      cases hbody : response.body with
      | none =>
        left
        simp [checkAuth, htoken, htext, hnet, hok, Response.json, hbody]
      | some user =>
        have hrun : checkAuth net s =
            match updateNavForUser (afterVerify s bearer user) with
            | (Except.ok _, s3) => s3
            | (Except.error _, s3) => logout s3 := by
          simp [checkAuth, htoken, htext, hnet, hok, Response.json, hbody, afterVerify,
            logRequest]
        have hiff := updateNavForUser_ok_iff (afterVerify s bearer user)
        have hdom : (afterVerify s bearer user).dom = s.dom := rfl
        have huser : (afterVerify s bearer user).currentUser = user := rfl
        rw [hdom, huser] at hiff
        cases hres : (updateNavForUser (afterVerify s bearer user)).1 with
        | ok u =>
          right
          refine ⟨response, user, rfl, hok, hbody, hiff.mp hres, hres, ?_⟩
          rw [hrun]
          rcases hpair : updateNavForUser (afterVerify s bearer user) with ⟨r, s3⟩
          rw [hpair] at hres
          simp only at hres
          subst hres
          rfl
        | error e =>
          left
          constructor
          · rw [hrun]
            have hsame := updateNavForUser_error (afterVerify s bearer user) e hres
            rcases hpair : updateNavForUser (afterVerify s bearer user) with ⟨r, s3⟩
            rw [hpair] at hres hsame
            simp only at hres hsame
            subst hres
            subst hsame
            exact logout_afterVerify s bearer user
          · rintro ⟨r, u, hr, -, hb, hw⟩
            cases hr
            rw [hbody] at hb
            cases hb
            rw [hiff.mpr hw] at hres
            cases hres

theorem afterVerify_nav_fields (s : State) (bearer : String) (user : JsVal) :
    (updateNavForUser (afterVerify s bearer user)).2.authToken = s.authToken ∧
    (updateNavForUser (afterVerify s bearer user)).2.currentUser = user ∧
    (updateNavForUser (afterVerify s bearer user)).2.winAuthToken = s.authToken ∧
    (updateNavForUser (afterVerify s bearer user)).2.winCurrentUser = user ∧
    (updateNavForUser (afterVerify s bearer user)).2.storage = s.storage := by
  obtain ⟨h1, h2, h3, h4, h5, -⟩ := updateNavForUser_fields (afterVerify s bearer user)
  rw [h1, h2, h3, h4, h5]
  simp [afterVerify, logRequest]

theorem checkAuth_frame (net : Net) (s : State) :
    (checkAuth net s).alerts = s.alerts ∧ (checkAuth net s).timers = s.timers ∧
    (checkAuth net s).dom.modals = s.dom.modals := by
  cases htoken : s.authToken.truthy with
  | false => simp [checkAuth, htoken, updateNavForGuest]
  | true =>
    cases htext : s.authToken.toJsString with
    | error e =>
      rw [checkAuth_unprintable net s e htoken htext]
      simp [logout, updateNavForGuest]
    | ok bearer =>
      rcases checkAuth_cases net s bearer htoken htext with
        ⟨hout, -⟩ | ⟨r, user, -, -, -, -, -, hout⟩
      · rw [hout]
        simp [logout, updateNavForGuest, logRequest]
      · obtain ⟨-, -, -, -, -, h6, h7, -, -, h10⟩ :=
          updateNavForUser_fields (afterVerify s bearer user)
        rw [hout, h6, h7, h10]
        simp [afterVerify, logRequest]

theorem checkAuth_unauthorized (net : Net) (s : State) (bearer : String)
    (body : Option JsVal) (htoken : s.authToken.truthy = true)
    (htext : s.authToken.toJsString = Except.ok bearer)
    (h401 : net (meRequest bearer) = FetchResult.fulfilled { status := 401, body := body }) :
    checkAuth net s = logout (logRequest (meRequest bearer) s) := by
  simp [checkAuth, htoken, htext, h401, Response.ok]

/-! ## Lemmas on `handleLogin` -/

theorem handleLogin_failed (net : Net) (s : State) (username password : String)
    (hu : s.dom.loginUsername = some username) (hp : s.dom.loginPassword = some password)
    (hfail : Failed (net (loginRequest username password))) :
    ∃ msg, handleLogin net s =
        (Except.ok (), appendAlert msg "error" (logRequest (loginRequest username password) s)) ∧
      (match serverDetail (net (loginRequest username password)) with
        | some detail => msg = detail
        | none => msg = JsVal.str "Ошибка входа" ∨ msg = JsVal.str "Ошибка подключения") := by
  cases hnet : net (loginRequest username password) with
  | rejected =>
    refine ⟨JsVal.str "Ошибка подключения", ?_, ?_⟩
    · simp [handleLogin, hu, hp, handleLoginTry, hnet, showAlert_str]
    · simp [serverDetail]
  | fulfilled response =>
    have hok : response.ok = false := by simpa [hnet, Failed] using hfail
    cases hbody : response.body with
    | none =>
      refine ⟨JsVal.str "Ошибка подключения", ?_, ?_⟩
      · simp [handleLogin, hu, hp, handleLoginTry, hnet, hok, Response.json, hbody,
          showAlert_str]
      · simp [serverDetail, hbody]
    | some data =>
      cases hdetail : data.getProp "detail" with
      | error e =>
        refine ⟨JsVal.str "Ошибка подключения", ?_, ?_⟩
        · simp [handleLogin, hu, hp, handleLoginTry, hnet, hok, Response.json, hbody, hdetail,
            showAlert_str]
        · simp [serverDetail, hbody, hdetail]
      | ok detail =>
        cases ht : detail.truthy with
        | false =>
          refine ⟨JsVal.str "Ошибка входа", ?_, ?_⟩
          · simp [handleLogin, hu, hp, handleLoginTry, hnet, hok, Response.json, hbody, hdetail,
              ht, showAlert_str]
          · simp [serverDetail, hbody, hdetail, ht]
        | true =>
          cases htext : detail.toJsString with
          | ok text =>
            refine ⟨detail, ?_, ?_⟩
            · simp [handleLogin, hu, hp, handleLoginTry, hnet, hok, Response.json, hbody,
                hdetail, ht, showAlert, htext]
            · simp [serverDetail, hbody, hdetail, ht, htext]
          | error e =>
            refine ⟨JsVal.str "Ошибка подключения", ?_, ?_⟩
            · simp [handleLogin, hu, hp, handleLoginTry, hnet, hok, Response.json, hbody,
                hdetail, ht, showAlert, htext, JsVal.toJsString]
            · simp [serverDetail, hbody, hdetail, ht, htext]

theorem handleLogin_failed_session (net : Net) (s : State) (username password : String)
    (hu : s.dom.loginUsername = some username) (hp : s.dom.loginPassword = some password)
    (hfail : Failed (net (loginRequest username password))) :
    SessionUnchanged s (handleLogin net s).2 := by
  obtain ⟨msg, hrun, -⟩ := handleLogin_failed net s username password hu hp hfail
  rw [hrun]
  simp [SessionUnchanged, appendAlert, logRequest]

/-- When the login endpoint answers 2xx with a body whose `access_token` has a
string form, `handleLogin` stores it, runs `checkAuth`, closes the login modal,
shows the success notification and schedules the reload, in this order. -/
theorem handleLogin_ok (net : Net) (s : State) (username password text : String)
    (response : Response) (data token : JsVal)
    (hu : s.dom.loginUsername = some username) (hp : s.dom.loginPassword = some password)
    (hnet : net (loginRequest username password) = FetchResult.fulfilled response)
    (hok : response.ok = true) (hbody : response.body = some data)
    (htok : data.getProp "access_token" = Except.ok token)
    (htext : token.toJsString = Except.ok text) :
    handleLogin net s =
      (Except.ok (),
        { appendAlert (.str "Успешный вход! 💕") "success"
            (closeModal "loginModal"
              (checkAuth net (afterLogin s username password token text))) with
          timers := (appendAlert (.str "Успешный вход! 💕") "success"
            (closeModal "loginModal"
              (checkAuth net (afterLogin s username password token text)))).timers ++
            [(TimerAction.reloadPage, 500)] }) := by
  simp [handleLogin, hu, hp, handleLoginTry, hnet, hok, Response.json, hbody, htok, htext,
    afterLogin, showAlert_str, logRequest]

/-- When the `access_token` of a 2xx login answer has no string form,
`localStorage.setItem` throws after the assignment to `authToken`: the token
stays in the variable, nothing is stored and the connection error is shown. -/
theorem handleLogin_unprintable (net : Net) (s : State) (username password : String)
    (response : Response) (data token : JsVal) (e : JsError)
    (hu : s.dom.loginUsername = some username) (hp : s.dom.loginPassword = some password)
    (hnet : net (loginRequest username password) = FetchResult.fulfilled response)
    (hok : response.ok = true) (hbody : response.body = some data)
    (htok : data.getProp "access_token" = Except.ok token)
    (htext : token.toJsString = Except.error e) :
    handleLogin net s =
      (Except.ok (),
        appendAlert (.str "Ошибка подключения") "error"
          { logRequest (loginRequest username password) s with authToken := token }) := by
  simp [handleLogin, hu, hp, handleLoginTry, hnet, hok, Response.json, hbody, htok, htext,
    showAlert_str, logRequest]

/-- The effects of a 2xx login that do not depend on the verification. -/
theorem handleLogin_ok_effects (net : Net) (s : State) (username password text : String)
    (response : Response) (data token : JsVal)
    (hu : s.dom.loginUsername = some username) (hp : s.dom.loginPassword = some password)
    (hnet : net (loginRequest username password) = FetchResult.fulfilled response)
    (hok : response.ok = true) (hbody : response.body = some data)
    (htok : data.getProp "access_token" = Except.ok token)
    (htext : token.toJsString = Except.ok text) :
    (handleLogin net s).1 = Except.ok () ∧
    SessionUnchanged (checkAuth net (afterLogin s username password token text))
      (handleLogin net s).2 ∧
    (handleLogin net s).2.hrefs =
      (checkAuth net (afterLogin s username password token text)).hrefs ∧
    (handleLogin net s).2.dom.modals = setActive s.dom.modals "loginModal" false ∧
    (handleLogin net s).2.alerts = s.alerts ++ [(JsVal.str "Успешный вход! 💕", "success")] ∧
    (handleLogin net s).2.timers =
      s.timers ++ [(TimerAction.fadeAlert s.alerts.length, 3000),
        (TimerAction.reloadPage, 500)] := by
  have hrun :=
    handleLogin_ok net s username password text response data token hu hp hnet hok hbody
      htok htext
  obtain ⟨ha, ht, hm⟩ := checkAuth_frame net (afterLogin s username password token text)
  rw [hrun]
  refine ⟨rfl, ?_, ?_, ?_, ?_, ?_⟩
  · simp [SessionUnchanged, appendAlert, closeModal]
  · simp [appendAlert, closeModal]
  · simp only [appendAlert, closeModal, hm]
    simp [afterLogin, logRequest]
  · simp only [appendAlert, closeModal, ha]
    simp [afterLogin, logRequest]
  · simp only [appendAlert, closeModal, ha, ht]
    simp [afterLogin, logRequest]

/-! ## Lemmas on `handleRegister` -/

theorem handleRegister_failed (net : Net) (s : State) (email username password : String)
    (he : s.dom.registerEmail = some email) (hu : s.dom.registerUsername = some username)
    (hp : s.dom.registerPassword = some password)
    (hfail : Failed (net (registerRequest email username password))) :
    ∃ msg, handleRegister net s =
        (Except.ok (),
          appendAlert msg "error" (logRequest (registerRequest email username password) s)) := by
  cases hnet : net (registerRequest email username password) with
  | rejected =>
    exact ⟨JsVal.str "Ошибка подключения", by
      simp [handleRegister, he, hu, hp, handleRegisterTry, hnet, showAlert_str]⟩
  | fulfilled response =>
    have hok : response.ok = false := by simpa [hnet, Failed] using hfail
    cases hbody : response.body with
    | none =>
      exact ⟨JsVal.str "Ошибка подключения", by
        simp [handleRegister, he, hu, hp, handleRegisterTry, hnet, hok, Response.json, hbody,
          showAlert_str]⟩
    | some data =>
      cases hdetail : data.getProp "detail" with
      | error e =>
        exact ⟨JsVal.str "Ошибка подключения", by
          simp [handleRegister, he, hu, hp, handleRegisterTry, hnet, hok, Response.json,
            hbody, hdetail, showAlert_str]⟩
      | ok detail =>
        cases ht : detail.truthy with
        | false =>
          exact ⟨JsVal.str "Ошибка регистрации", by
            simp [handleRegister, he, hu, hp, handleRegisterTry, hnet, hok, Response.json,
              hbody, hdetail, ht, showAlert_str]⟩
        | true =>
          cases htext : detail.toJsString with
          | ok text =>
            exact ⟨detail, by
              simp [handleRegister, he, hu, hp, handleRegisterTry, hnet, hok, Response.json,
                hbody, hdetail, ht, showAlert, htext]⟩
          | error e =>
            exact ⟨JsVal.str "Ошибка подключения", by
              simp [handleRegister, he, hu, hp, handleRegisterTry, hnet, hok, Response.json,
                hbody, hdetail, ht, showAlert, htext, JsVal.toJsString]⟩

theorem handleRegister_succeeded (net : Net) (s : State) (email username password : String)
    (response : Response)
    (he : s.dom.registerEmail = some email) (hu : s.dom.registerUsername = some username)
    (hp : s.dom.registerPassword = some password)
    (hnet : net (registerRequest email username password) = FetchResult.fulfilled response)
    (hok : response.ok = true) :
    SessionUnchanged s (handleRegister net s).2 ∧
    (handleRegister net s).2.requests =
      s.requests ++ [registerRequest email username password] := by
  cases hl : s.dom.loginUsername <;>
    simp [handleRegister, he, hu, hp, handleRegisterTry, hnet, hok, hl, closeModal,
      showAlert_str, appendAlert, logRequest, SessionUnchanged]

theorem handleRegister_session (net : Net) (s : State) :
    SessionUnchanged s (handleRegister net s).2 := by
  cases he : s.dom.registerEmail with
  | none => simp [handleRegister, he, SessionUnchanged]
  | some email =>
    cases hu : s.dom.registerUsername with
    | none => simp [handleRegister, he, hu, SessionUnchanged]
    | some username =>
      cases hp : s.dom.registerPassword with
      | none => simp [handleRegister, he, hu, hp, SessionUnchanged]
      | some password =>
        cases hnet : net (registerRequest email username password) with
        | rejected =>
          obtain ⟨msg, hrun⟩ := handleRegister_failed net s email username password he hu hp
            (by simp [hnet, Failed])
          rw [hrun]
          simp [SessionUnchanged, appendAlert, logRequest]
        | fulfilled response =>
          cases hok : response.ok with
          | false =>
            obtain ⟨msg, hrun⟩ := handleRegister_failed net s email username password he hu hp
              (by simp [hnet, Failed, hok])
            rw [hrun]
            simp [SessionUnchanged, appendAlert, logRequest]
          | true =>
            exact (handleRegister_succeeded net s email username password response he hu hp
              hnet hok).1

/-! ## Lemmas on `apiRequest` -/

theorem apiRequest_on_401 (net : Net) (url : String) (options : Options)
    (s : State) (req : Request) (body : Option JsVal)
    (hreq : apiFetchRequest url options s = Except.ok req)
    (h401 : net req = FetchResult.fulfilled { status := 401, body := body }) :
    apiRequest net url options s =
      (Except.error (JsError.error "Unauthorized"), logout (logRequest req s)) ∧
    TornDown s (apiRequest net url options s).2 := by
  have hstep : apiRequest net url options s =
      (Except.error (JsError.error "Unauthorized"), logout (logRequest req s)) := by
    simp [apiRequest, hreq, h401, Response.ok]
  refine ⟨hstep, ?_⟩
  rw [hstep]
  simp [TornDown, logout, updateNavForGuest, logRequest]

/-! ## Preservation of the session invariant -/

theorem logout_invariant (s : State) : UserImpliesToken (logout s) := by
  simp [UserImpliesToken, logout, updateNavForGuest, JsVal.isNullish]

theorem checkAuth_invariant_of_token (net : Net) (s : State)
    (htoken : s.authToken.truthy = true) : UserImpliesToken (checkAuth net s) := by
  cases htext : s.authToken.toJsString with
  | error e =>
    rw [checkAuth_unprintable net s e htoken htext]
    exact logout_invariant _
  | ok bearer =>
    rcases checkAuth_cases net s bearer htoken htext with
      ⟨hout, -⟩ | ⟨r, user, -, -, -, -, -, hout⟩
    · rw [hout]
      exact logout_invariant _
    · obtain ⟨h1, -, -, -, -⟩ := afterVerify_nav_fields s bearer user
      intro _
      rw [hout, h1]
      exact htoken

theorem checkAuth_invariant (net : Net) (s : State) (h : UserImpliesToken s) :
    UserImpliesToken (checkAuth net s) := by
  cases htoken : s.authToken.truthy with
  | false =>
    have hrun : checkAuth net s = updateNavForGuest s := by simp [checkAuth, htoken]
    rw [hrun]
    simpa [UserImpliesToken, updateNavForGuest] using h
  | true => exact checkAuth_invariant_of_token net s htoken

theorem invariant_of_sessionUnchanged (s s1 : State) (hs : SessionUnchanged s s1)
    (h : UserImpliesToken s) : UserImpliesToken s1 := by
  obtain ⟨h1, h2, -⟩ := hs
  simpa [UserImpliesToken, h1, h2] using h

theorem handleLogin_invariant (net : Net) (s : State) (hc : LoginContract net)
    (h : UserImpliesToken s) : UserImpliesToken (handleLogin net s).2 := by
  cases hu : s.dom.loginUsername with
  | none =>
    have hrun : handleLogin net s = (Except.error JsError.typeError, s) := by
      simp [handleLogin, hu]
    rw [hrun]
    exact h
  | some username =>
    cases hp : s.dom.loginPassword with
    | none =>
      have hrun : handleLogin net s = (Except.error JsError.typeError, s) := by
        simp [handleLogin, hu, hp]
      rw [hrun]
      exact h
    | some password =>
      cases hnet : net (loginRequest username password) with
      | rejected =>
        exact invariant_of_sessionUnchanged s _
          (handleLogin_failed_session net s username password hu hp
            (by simp [hnet, Failed])) h
      | fulfilled response =>
        cases hok : response.ok with
        | false =>
          exact invariant_of_sessionUnchanged s _
            (handleLogin_failed_session net s username password hu hp
              (by simp [hnet, Failed, hok])) h
        | true =>
          cases hbody : response.body with
          | none =>
            have hrun : handleLogin net s = (Except.ok (),
                appendAlert (.str "Ошибка подключения") "error"
                  (logRequest (loginRequest username password) s)) := by
              simp [handleLogin, hu, hp, handleLoginTry, hnet, hok, Response.json, hbody,
                showAlert_str]
            rw [hrun]
            simpa [UserImpliesToken, appendAlert, logRequest] using h
          | some data =>
            cases htok : data.getProp "access_token" with
            | error e =>
              have hrun : handleLogin net s = (Except.ok (),
                  appendAlert (.str "Ошибка подключения") "error"
                    (logRequest (loginRequest username password) s)) := by
                simp [handleLogin, hu, hp, handleLoginTry, hnet, hok, Response.json, hbody,
                  htok, showAlert_str]
              rw [hrun]
              simpa [UserImpliesToken, appendAlert, logRequest] using h
            | ok token =>
              have htruthy := hc username password response data token hnet hok hbody htok
              cases htext : token.toJsString with
              | error e =>
                rw [handleLogin_unprintable net s username password response data token e
                  hu hp hnet hok hbody htok htext]
                intro _
                simpa [appendAlert, logRequest] using htruthy
              | ok text =>
                obtain ⟨-, hsess, -⟩ :=
                  handleLogin_ok_effects net s username password text response data token
                    hu hp hnet hok hbody htok htext
                exact invariant_of_sessionUnchanged _ _ hsess
                  (checkAuth_invariant_of_token net _ htruthy)

theorem apiRequest_invariant (net : Net) (url : String) (options : Options) (s : State)
    (h : UserImpliesToken s) : UserImpliesToken (apiRequest net url options s).2 := by
  cases hreq : apiFetchRequest url options s with
  | error e =>
    have hrun : apiRequest net url options s = (Except.error e, s) := by
      simp [apiRequest, hreq]
    rw [hrun]
    exact h
  | ok req =>
    cases hnet : net req with
    | rejected =>
      have hrun : apiRequest net url options s =
          (Except.error JsError.networkError, logRequest req s) := by
        simp [apiRequest, hreq, hnet]
      rw [hrun]
      simpa [UserImpliesToken, logRequest] using h
    | fulfilled response =>
      by_cases h401 : (!response.ok && response.status == 401) = true
      · have hrun : apiRequest net url options s =
            (Except.error (JsError.error "Unauthorized"), logout (logRequest req s)) := by
          simp only [apiRequest, hreq, hnet, h401, if_true]
        rw [hrun]
        exact logout_invariant _
      · have hrun : apiRequest net url options s = (Except.ok response, logRequest req s) := by
          simp only [apiRequest, hreq, hnet, h401]
          rfl
        rw [hrun]
        simpa [UserImpliesToken, logRequest] using h

theorem exec_invariant (c : Call) (s : State) (hc : c.keepsContract)
    (h : UserImpliesToken s) : UserImpliesToken (c.exec s) := by
  cases c with
  | logout => exact logout_invariant s
  | op o net =>
    cases o with
    | checkAuth => exact checkAuth_invariant net s h
    | handleLogin => exact handleLogin_invariant net s hc h
    | handleRegister =>
      exact invariant_of_sessionUnchanged s _ (handleRegister_session net s) h
    | apiRequest url options => exact apiRequest_invariant net url options s h

theorem runCalls_invariant (calls : List Call) (s : State)
    (hc : ∀ c ∈ calls, c.keepsContract) (h : UserImpliesToken s) :
    UserImpliesToken (runCalls calls s) := by
  induction calls generalizing s with
  | nil => exact h
  | cons c rest ih =>
    have hstep : runCalls (c :: rest) s = runCalls rest (c.exec s) := rfl
    rw [hstep]
    exact ih (c.exec s) (fun d hd => hc d (List.mem_cons_of_mem c hd))
      (exec_invariant c s (hc c (List.mem_cons_self c rest)) h)

theorem netAlice_contract : LoginContract netAlice := by
  intro username password response data token hnet _ hbody htok
  simp only [netAlice, loginRequest, if_true] at hnet
  cases hnet
  cases hbody
  simp [JsVal.getProp, List.lookup] at htok
  subst htok
  decide

/-! ## C1: a 401 at the gateway -/

/-- C1. When the response to the request of `apiRequest` has status 401, the
call performs the teardown of `logout` (token and user set to `null`, the
stored token removed, guest navigation written, `/` assigned to
`window.location.href` exactly once) and throws `Error("Unauthorized")`; the
response is not returned. -/
theorem apiRequest_unauthorized (net : Net) (url : String) (options : Options)
    (s : State) (req : Request) (body : Option JsVal)
    (hreq : apiFetchRequest url options s = Except.ok req)
    (h401 : net req = FetchResult.fulfilled { status := 401, body := body }) :
    (apiRequest net url options s).1 = Except.error (JsError.error "Unauthorized") ∧
    (apiRequest net url options s).2 = logout (logRequest req s) ∧
    TornDown s (apiRequest net url options s).2 ∧
    (apiRequest net url options s).2.hrefs = s.hrefs ++ ["/"] := by
  have hstep : apiRequest net url options s =
      (Except.error (JsError.error "Unauthorized"), logout (logRequest req s)) := by
    simp [apiRequest, hreq, h401, Response.ok]
  rw [hstep]
  refine ⟨rfl, rfl, ?_, ?_⟩
  · simp [TornDown, logout, updateNavForGuest, logRequest]
  · simp [logout, updateNavForGuest, logRequest]

/-- A concrete instance: an authenticated session whose request to
`/api/v1/posts` is answered 401. -/
theorem apiRequest_unauthorized_witness :
    apiFetchRequest "/api/v1/posts" { headers := none, method := none, body := none }
        aliceSession =
      Except.ok
        { url := "/api/v1/posts"
          method := none
          headers := [("Content-Type", "application/json"), ("Authorization", "Bearer tok123")]
          body := none } ∧
    netStatus 401 none
        { url := "/api/v1/posts"
          method := none
          headers := [("Content-Type", "application/json"), ("Authorization", "Bearer tok123")]
          body := none } =
      FetchResult.fulfilled { status := 401, body := none } ∧
    (apiRequest (netStatus 401 none) "/api/v1/posts"
        { headers := none, method := none, body := none } aliceSession).1 =
      Except.error (JsError.error "Unauthorized") ∧
    (apiRequest (netStatus 401 none) "/api/v1/posts"
        { headers := none, method := none, body := none } aliceSession).2.hrefs = ["/"] :=
  ⟨rfl, rfl,
   (apiRequest_unauthorized (netStatus 401 none) "/api/v1/posts"
      { headers := none, method := none, body := none } aliceSession _ none rfl rfl).1,
   (apiRequest_unauthorized (netStatus 401 none) "/api/v1/posts"
      { headers := none, method := none, body := none } aliceSession _ none rfl rfl).2.2.2⟩

/-! ## C2: a 401 by operation -/

/-- C2, as the code has it. When the request an operation issues is answered
401: `checkAuth` and `apiRequest` tear the session down (token and user
cleared in memory, stored token removed, guest navigation written), while
`handleLogin` and `handleRegister`, which call `fetch` directly and treat 401
like any other failure status, leave token, user, stored token and navigation
as they were. -/
theorem unauthorized_by_operation (o : Operation) (net : Net) (s : State)
    (req : Request) (body : Option JsVal)
    (hreq : o.request s = some req)
    (h401 : net req = FetchResult.fulfilled { status := 401, body := body }) :
    match o with
    | .checkAuth => TornDown s (o.run net s)
    | .apiRequest _ _ => TornDown s (o.run net s)
    | .handleLogin => SessionUnchanged s (o.run net s)
    | .handleRegister => SessionUnchanged s (o.run net s) := by
  cases o with
  | checkAuth =>
    have htoken : s.authToken.truthy = true := by
      by_contra hne
      simp [Operation.request, hne] at hreq
    cases htext : s.authToken.toJsString with
    | error e => simp [Operation.request, htoken, htext] at hreq
    | ok bearer =>
      have hr : req = meRequest bearer := by
        simpa [Operation.request, htoken, htext] using hreq.symm
      subst hr
      simp only [Operation.run]
      rw [checkAuth_unauthorized net s bearer body htoken htext h401]
      simp [TornDown, logout, updateNavForGuest, logRequest]
  | apiRequest url options =>
    cases hfetch : apiFetchRequest url options s with
    | error e => simp [Operation.request, hfetch] at hreq
    | ok r =>
      have hr : req = r := by
        simpa [Operation.request, hfetch] using hreq.symm
      subst hr
      exact (apiRequest_on_401 net url options s req body hfetch h401).2
  | handleLogin =>
    cases hu : s.dom.loginUsername with
    | none => simp [Operation.request, hu] at hreq
    | some username =>
      cases hp : s.dom.loginPassword with
      | none => simp [Operation.request, hu, hp] at hreq
      | some password =>
        have hr : req = loginRequest username password := by
          simpa [Operation.request, hu, hp] using hreq.symm
        subst hr
        exact handleLogin_failed_session net s username password hu hp
          (by simp [h401, Failed, Response.ok])
  | handleRegister =>
    exact handleRegister_session net s

/-- A concrete instance: the login form submitted in an authenticated
session, the login endpoint answering 401. -/
theorem unauthorized_by_operation_witness :
    Operation.handleLogin.request aliceSession = some (loginRequest "alice" "pw") ∧
    netStatus 401 none (loginRequest "alice" "pw") =
      FetchResult.fulfilled { status := 401, body := none } ∧
    SessionUnchanged aliceSession
      (Operation.handleLogin.run (netStatus 401 none) aliceSession) :=
  ⟨rfl, rfl,
   unauthorized_by_operation Operation.handleLogin (netStatus 401 none) aliceSession
     (loginRequest "alice" "pw") none rfl rfl⟩

/-- A 401 does not always clear the session: in an authenticated session the
login form is submitted and the login endpoint answers 401 with a `detail`;
when `handleLogin` finishes the token, the user and the stored token are all
still there, and the navigation still shows the user. -/
theorem login_unauthorized_keeps_session :
    Operation.handleLogin.request aliceSession = some (loginRequest "alice" "pw") ∧
    netStatus 401 (some (.obj [("detail", .str "bad credentials")]))
        (loginRequest "alice" "pw") =
      FetchResult.fulfilled
        { status := 401, body := some (.obj [("detail", .str "bad credentials")]) } ∧
    (Operation.handleLogin.run
        (netStatus 401 (some (.obj [("detail", .str "bad credentials")])))
        aliceSession).authToken = JsVal.str "tok123" ∧
    (Operation.handleLogin.run
        (netStatus 401 (some (.obj [("detail", .str "bad credentials")])))
        aliceSession).currentUser = alice ∧
    (Operation.handleLogin.run
        (netStatus 401 (some (.obj [("detail", .str "bad credentials")])))
        aliceSession).storage = some "tok123" ∧
    (Operation.handleLogin.run
        (netStatus 401 (some (.obj [("detail", .str "bad credentials")])))
        aliceSession).dom.nav = some (Nav.user "1") ∧
    ¬ TornDown aliceSession
      (Operation.handleLogin.run
        (netStatus 401 (some (.obj [("detail", .str "bad credentials")])))
        aliceSession) := by
  have h1 : (Operation.handleLogin.run
        (netStatus 401 (some (.obj [("detail", .str "bad credentials")])))
        aliceSession).authToken = JsVal.str "tok123" := rfl
  refine ⟨rfl, rfl, h1, rfl, rfl, rfl, ?_⟩
  intro h
  have h2 := h.1
  rw [h1] at h2
  cases h2

/-! ## C3: verification at page load -/

/-- C3, as the code has it. On page load with a non-empty stored token `T`,
whatever the identity endpoint does, `checkAuth` ends in exactly one of two
states: token `T` kept in memory and in storage with `currentUser` the parsed
body of a 2xx response, or no token in memory, no user and no stored token.
Every outcome other than a 2xx response with a parsable body gives the second.
When the page has a `.nav` element, or no 2xx response carries a `null` body,
the first state has a user, so that no final state holds a token, in memory or
stored, without a user. -/
theorem checkAuth_on_load (T : String) (dom : Dom) (net : Net) (hT : T ≠ "") :
    Xor'
      ((checkAuth net (initState (some T) dom)).authToken = JsVal.str T ∧
        (checkAuth net (initState (some T) dom)).storage = some T ∧
        ∃ response user,
          net (meRequest T) = FetchResult.fulfilled response ∧
          response.ok = true ∧ response.body = some user ∧
          (checkAuth net (initState (some T) dom)).currentUser = user)
      ((checkAuth net (initState (some T) dom)).authToken = JsVal.null ∧
        (checkAuth net (initState (some T) dom)).currentUser = JsVal.null ∧
        (checkAuth net (initState (some T) dom)).storage = none) ∧
    ((¬ ∃ response user,
        net (meRequest T) = FetchResult.fulfilled response ∧
        response.ok = true ∧ response.body = some user) →
      TornDown (initState (some T) dom) (checkAuth net (initState (some T) dom))) ∧
    ((dom.nav.isSome = true ∨
        ∀ response user, net (meRequest T) = FetchResult.fulfilled response →
          response.ok = true → response.body = some user → user.isNullish = false) →
      ((checkAuth net (initState (some T) dom)).authToken.truthy = true ∨
        (checkAuth net (initState (some T) dom)).storage.isSome = true) →
      (checkAuth net (initState (some T) dom)).currentUser.isNullish = false) := by
  have htoken : (initState (some T) dom).authToken.truthy = true := by
    simp [initState, JsVal.truthy, hT]
  have hinit : (initState (some T) dom).authToken = JsVal.str T := rfl
  have hstore : (initState (some T) dom).storage = some T := rfl
  have hdom : (initState (some T) dom).dom = dom := rfl
  have htext : (initState (some T) dom).authToken.toJsString = Except.ok T := rfl
  rcases checkAuth_cases net (initState (some T) dom) T htoken htext with
    ⟨hout, -⟩ | ⟨response, user, hnet, hok, hbody, hcase, -, hout⟩
  · have htd := logout_tornDown (logRequest (meRequest T) (initState (some T) dom))
    rw [hout]
    obtain ⟨h1, h2, -, -, h5, h6⟩ := htd
    refine ⟨Or.inr ⟨⟨h1, h2, h5⟩, ?_⟩, ?_, ?_⟩
    · rintro ⟨h, -⟩
      rw [h1] at h
      cases h
    · intro _
      exact ⟨h1, h2, by simp [logout, updateNavForGuest], by simp [logout, updateNavForGuest],
        h5, by simpa [logRequest] using h6⟩
    · intro _ h
      rw [h1, h5] at h
      simp [JsVal.truthy] at h
  · obtain ⟨h1, h2, -, -, h5⟩ := afterVerify_nav_fields (initState (some T) dom) T user
    rw [hout, h1, h2, h5, hinit, hstore]
    refine ⟨Or.inl ⟨⟨rfl, rfl, response, user, hnet, hok, hbody, rfl⟩, ?_⟩, ?_, ?_⟩
    · rintro ⟨h, -⟩
      cases h
    · intro hno
      exact absurd ⟨response, user, hnet, hok, hbody⟩ hno
    · intro huser _
      rcases hcase with hnone | ⟨id, text, hid, -⟩
      · rcases huser with hsome | hall
        · rw [hdom] at hnone
          simp [hnone] at hsome
        · exact hall response user hnet hok hbody
      · exact getProp_ok_not_nullish user "id" id hid

/-- A concrete instance, from the scenario of the specification: the stored token `tok123` is
confirmed by the server. -/
theorem checkAuth_on_load_witness :
    ("tok123" ≠ "") ∧ homePage.nav.isSome = true ∧
    (checkAuth netAlice (initState (some "tok123") homePage)).authToken = JsVal.str "tok123" ∧
    (checkAuth netAlice (initState (some "tok123") homePage)).currentUser = alice ∧
    ((checkAuth netAlice (initState (some "tok123") homePage)).authToken.truthy = true ∨
        (checkAuth netAlice (initState (some "tok123") homePage)).storage.isSome = true →
      (checkAuth netAlice (initState (some "tok123") homePage)).currentUser.isNullish = false) :=
  ⟨by decide, rfl, rfl, rfl,
   (checkAuth_on_load "tok123" homePage netAlice (by decide)).2.2 (Or.inl rfl)⟩

/-- Two page loads that end outside the two states. With the empty string stored under
`authToken`, `checkAuth` returns at its first test: the empty token stays in
memory and the key stays in storage. On a page without a `.nav` element, with
`tok123` stored and the identity endpoint answering 200 with the body `null`,
`checkAuth` ends with the token in memory and in storage and `currentUser`
equal to `null`: a token without a user. -/
theorem load_leaves_token_without_user :
    ((checkAuth netAlice (initState (some "") homePage)).authToken = JsVal.str "" ∧
      (checkAuth netAlice (initState (some "") homePage)).currentUser = JsVal.null ∧
      (checkAuth netAlice (initState (some "") homePage)).storage = some "" ∧
      (checkAuth netAlice (initState (some "") homePage)).requests = []) ∧
    (netStatus 200 (some JsVal.null) (meRequest "tok123") =
        FetchResult.fulfilled { status := 200, body := some JsVal.null } ∧
      (checkAuth (netStatus 200 (some JsVal.null))
        (initState (some "tok123") barePage)).authToken = JsVal.str "tok123" ∧
      (checkAuth (netStatus 200 (some JsVal.null))
        (initState (some "tok123") barePage)).storage = some "tok123" ∧
      (checkAuth (netStatus 200 (some JsVal.null))
        (initState (some "tok123") barePage)).currentUser = JsVal.null) :=
  ⟨⟨rfl, rfl, rfl, rfl⟩, rfl, rfl, rfl, rfl⟩

/-! ## C4: the session invariant -/

/-- C4, as the code has it. From the state at script load, after any sequence
of completed `checkAuth`, `handleLogin`, `handleRegister`, `logout` and
`apiRequest` calls, with arbitrary server responses except that every 2xx
answer of the login endpoint with a JSON body carries a truthy (non-empty)
`access_token`, `currentUser != null` implies that `authToken` is a truthy,
hence non-empty, token. -/
theorem session_invariant (stored : Option String) (dom : Dom) (calls : List Call)
    (hc : ∀ c ∈ calls, c.keepsContract) :
    UserImpliesToken (initState stored dom) ∧
    UserImpliesToken (runCalls calls (initState stored dom)) := by
  have h0 : UserImpliesToken (initState stored dom) := by
    simp [UserImpliesToken, initState, JsVal.isNullish]
  exact ⟨h0, runCalls_invariant calls _ hc h0⟩

/-- A concrete instance: a page load with a valid stored token, a login
and a logout, all against the server of the scenario. -/
theorem session_invariant_witness :
    (∀ c ∈ [Call.op Operation.checkAuth netAlice, Call.op Operation.handleLogin netAlice,
        Call.logout], c.keepsContract) ∧
    UserImpliesToken
      (runCalls [Call.op Operation.checkAuth netAlice,
        Call.op Operation.handleLogin netAlice, Call.logout]
        (initState (some "tok123") homePage)) :=
  have hc : ∀ c ∈ [Call.op Operation.checkAuth netAlice,
      Call.op Operation.handleLogin netAlice, Call.logout], c.keepsContract := by
    intro c hmem
    simp only [List.mem_cons, List.mem_singleton, List.mem_nil_iff, or_false] at hmem
    rcases hmem with h | h | h
    · subst h; exact True.intro
    · subst h; exact netAlice_contract
    · subst h; exact True.intro
  ⟨hc, (session_invariant (some "tok123") homePage _ hc).2⟩

/-- A user without a token: the page loads with the valid stored token `tok123`,
so `checkAuth` sets the user; then the login form is submitted and the login
endpoint answers 200 with the body `{}`. `handleLogin` assigns
`data.access_token`, which is `undefined`, to `authToken`; `checkAuth` returns
at its first test without touching `currentUser`. The user is still set and
there is no token. -/
theorem user_without_token :
    (runCalls [Call.op Operation.checkAuth netAlice,
        Call.op Operation.handleLogin (netStatus 200 (some (.obj [])))]
      (initState (some "tok123") homePage)).currentUser = alice ∧
    (runCalls [Call.op Operation.checkAuth netAlice,
        Call.op Operation.handleLogin (netStatus 200 (some (.obj [])))]
      (initState (some "tok123") homePage)).authToken = JsVal.undefined ∧
    ¬ UserImpliesToken
      (runCalls [Call.op Operation.checkAuth netAlice,
        Call.op Operation.handleLogin (netStatus 200 (some (.obj [])))]
      (initState (some "tok123") homePage)) := by
  have h1 : (runCalls [Call.op Operation.checkAuth netAlice,
        Call.op Operation.handleLogin (netStatus 200 (some (.obj [])))]
      (initState (some "tok123") homePage)).currentUser = alice := rfl
  have h2 : (runCalls [Call.op Operation.checkAuth netAlice,
        Call.op Operation.handleLogin (netStatus 200 (some (.obj [])))]
      (initState (some "tok123") homePage)).authToken = JsVal.undefined := rfl
  refine ⟨h1, h2, ?_⟩
  intro h
  have h3 := h (by rw [h1]; rfl)
  rw [h2] at h3
  simp [JsVal.truthy] at h3

/-! ## C5: logout twice -/

/-- C5. `logout()` is idempotent on the session: a second `logout()` changes
nothing but the log of redirects, so token, user, stored token and navigation
after two calls are those after one, and after one call there is no token in
memory, none in storage and no user. `logout` is a total function of the
state: none of its statements can throw, also when nobody is logged in. -/
theorem logout_idempotent (s : State) :
    logout (logout s) = { logout s with hrefs := (logout s).hrefs ++ ["/"] } ∧
    (logout (logout s)).authToken = (logout s).authToken ∧
    (logout (logout s)).currentUser = (logout s).currentUser ∧
    (logout (logout s)).storage = (logout s).storage ∧
    (logout (logout s)).dom = (logout s).dom ∧
    (logout s).authToken = JsVal.null ∧
    (logout s).currentUser = JsVal.null ∧
    (logout s).storage = none ∧
    TornDown s (logout s) ∧ TornDown s (logout (logout s)) := by
  refine ⟨?_, ?_, ?_, ?_, ?_, ?_, ?_, ?_, ?_, ?_⟩ <;>
    (try cases h : s.dom.nav) <;>
    simp [TornDown, logout, updateNavForGuest, *]

/-! ## C6: successful login -/

/-- C6, as the code has it. If the login endpoint answers 2xx with a body
whose `access_token` is a non-empty string `t`, and the identity endpoint
answers the bearer `t` with 2xx and a body `u` that is not `null` and for
which the user navigation can be written (the page has no `.nav` element, or
`u.id` has a string form), then when `handleLogin` finishes `authToken` is
`t`, the stored token is `t`, `currentUser` is `u`, the body of the verify
response and no part of the login response, the login modal is closed and
exactly one notification, of type `success`, has been added. -/
theorem handleLogin_success (net : Net) (s : State) (username password t : String)
    (loginResponse meResponse : Response) (data u : JsVal)
    (hu : s.dom.loginUsername = some username) (hp : s.dom.loginPassword = some password)
    (hlogin : net (loginRequest username password) = FetchResult.fulfilled loginResponse)
    (hok : loginResponse.ok = true) (hbody : loginResponse.body = some data)
    (htok : data.getProp "access_token" = Except.ok (JsVal.str t))
    (ht : t ≠ "")
    (hme : net (meRequest t) = FetchResult.fulfilled meResponse)
    (hmeok : meResponse.ok = true) (hmebody : meResponse.body = some u)
    (hnull : u.isNullish = false) (hnav : NavWritable s.dom u) :
    (handleLogin net s).1 = Except.ok () ∧
    (handleLogin net s).2.authToken = JsVal.str t ∧
    (handleLogin net s).2.storage = some t ∧
    (handleLogin net s).2.currentUser = u ∧
    (handleLogin net s).2.winAuthToken = JsVal.str t ∧
    (handleLogin net s).2.winCurrentUser = u ∧
    Authenticated (handleLogin net s).2 ∧
    (handleLogin net s).2.hrefs = s.hrefs ∧
    (handleLogin net s).2.requests =
      s.requests ++ [loginRequest username password, meRequest t] ∧
    isActive (handleLogin net s).2.dom.modals "loginModal" = false ∧
    (handleLogin net s).2.alerts = s.alerts ++ [(JsVal.str "Успешный вход! 💕", "success")] ∧
    (handleLogin net s).2.timers =
      s.timers ++ [(TimerAction.fadeAlert s.alerts.length, 3000),
        (TimerAction.reloadPage, 500)] := by
  have htext : (JsVal.str t).toJsString = Except.ok t := toJsString_str t
  have hrun := handleLogin_ok net s username password t loginResponse data (JsVal.str t)
    hu hp hlogin hok hbody htok htext
  obtain ⟨hres, hsess, hhrefs, hmodals, halerts, htimers⟩ :=
    handleLogin_ok_effects net s username password t loginResponse data (JsVal.str t)
      hu hp hlogin hok hbody htok htext
  obtain ⟨g1, g2, g3, g4, g5, -⟩ := hsess
  have hauth : (afterLogin s username password (JsVal.str t) t).authToken = JsVal.str t := rfl
  have htruthy :
      (afterLogin s username password (JsVal.str t) t).authToken.truthy = true := by
    simp [hauth, JsVal.truthy, ht]
  have hcheck : checkAuth net (afterLogin s username password (JsVal.str t) t) =
      (updateNavForUser
        (afterVerify (afterLogin s username password (JsVal.str t) t) t u)).2 := by
    rcases checkAuth_cases net (afterLogin s username password (JsVal.str t) t) t htruthy
        htext with
      ⟨-, hno⟩ | ⟨r, user, hr, -, hb, -, -, hout⟩
    · exact absurd ⟨meResponse, u, hme, hmeok, hmebody, hnav⟩ hno
    · rw [hme] at hr
      cases hr
      rw [hmebody] at hb
      cases hb
      exact hout
  obtain ⟨f1, f2, f3, f4, f5⟩ :=
    afterVerify_nav_fields (afterLogin s username password (JsVal.str t) t) t u
  obtain ⟨-, -, -, -, -, -, -, f8, f9, -⟩ :=
    updateNavForUser_fields
      (afterVerify (afterLogin s username password (JsVal.str t) t) t u)
  have hreqs : (handleLogin net s).2.requests =
      (checkAuth net (afterLogin s username password (JsVal.str t) t)).requests := by
    rw [hrun]
    simp [appendAlert, closeModal]
  rw [hcheck] at g1 g2 g3 g4 g5 hhrefs hreqs
  rw [f1] at g1
  rw [f2] at g2
  rw [f3] at g3
  rw [f4] at g4
  rw [f5] at g5
  rw [f8] at hhrefs
  rw [f9] at hreqs
  refine ⟨hres, ?_, ?_, g2, ?_, g4, ?_, ?_, ?_, ?_, halerts, htimers⟩
  · rw [g1, hauth]
  · rw [g5]
    simp [afterLogin]
  · rw [g3, hauth]
  · simp [Authenticated, g1, g2, hauth, JsVal.truthy, hnull, ht]
  · rw [hhrefs]
    simp [afterVerify, afterLogin, logRequest]
  · rw [hreqs]
    simp [afterVerify, afterLogin, logRequest]
  · rw [hmodals]
    exact isActive_setActive_false _ _

/-- A concrete instance, the scenario of the specification: `alice` / `pw`,
the login endpoint issues `tok123`, the identity endpoint answers with the
record of `alice`. -/
theorem handleLogin_success_witness :
    (initState none homePage).dom.loginUsername = some "alice" ∧
    (initState none homePage).dom.loginPassword = some "pw" ∧
    netAlice (loginRequest "alice" "pw") =
      FetchResult.fulfilled
        { status := 200, body := some (.obj [("access_token", .str "tok123")]) } ∧
    ("tok123" ≠ "") ∧
    netAlice (meRequest "tok123") =
      FetchResult.fulfilled { status := 200, body := some alice } ∧
    NavWritable (initState none homePage).dom alice ∧
    (handleLogin netAlice (initState none homePage)).2.authToken = JsVal.str "tok123" ∧
    (handleLogin netAlice (initState none homePage)).2.storage = some "tok123" ∧
    (handleLogin netAlice (initState none homePage)).2.currentUser = alice ∧
    isActive (handleLogin netAlice (initState none homePage)).2.dom.modals "loginModal" =
      false ∧
    (handleLogin netAlice (initState none homePage)).2.alerts =
      [(JsVal.str "Успешный вход! 💕", "success")] :=
  have hnav : NavWritable (initState none homePage).dom alice :=
    Or.inr ⟨JsVal.num "1", "1", rfl, rfl⟩
  have h := handleLogin_success netAlice (initState none homePage) "alice" "pw" "tok123"
    { status := 200, body := some (.obj [("access_token", .str "tok123")]) }
    { status := 200, body := some alice }
    (.obj [("access_token", .str "tok123")]) alice
    rfl rfl rfl rfl rfl rfl (by decide) rfl rfl rfl rfl hnav
  ⟨rfl, rfl, rfl, by decide, rfl, hnav, h.2.1, h.2.2.1, h.2.2.2.1,
    h.2.2.2.2.2.2.2.2.2.1, h.2.2.2.2.2.2.2.2.2.2.1⟩

/-- Three logins that the endpoints answer with 2xx and that do not end
authenticated with the user of the verify answer. With the empty string as
`access_token`, `checkAuth` returns at its first test: no identity call is
made and `currentUser` stays `null`. With the body `null` from the identity
endpoint, and with a user whose `id` has no string form, the template of
`updateNavForUser` throws and `checkAuth` ends in `logout()`. In all three the
success notification is shown. -/
theorem login_ok_not_authenticated :
    (netLoginThen (.obj [("access_token", .str "")]) alice (loginRequest "alice" "pw") =
        FetchResult.fulfilled
          { status := 200, body := some (.obj [("access_token", .str "")]) } ∧
      netLoginThen (.obj [("access_token", .str "")]) alice (meRequest "") =
        FetchResult.fulfilled { status := 200, body := some alice } ∧
      (handleLogin (netLoginThen (.obj [("access_token", .str "")]) alice)
        (initState none homePage)).2.authToken = JsVal.str "" ∧
      (handleLogin (netLoginThen (.obj [("access_token", .str "")]) alice)
        (initState none homePage)).2.currentUser = JsVal.null ∧
      (handleLogin (netLoginThen (.obj [("access_token", .str "")]) alice)
        (initState none homePage)).2.requests = [loginRequest "alice" "pw"] ∧
      (handleLogin (netLoginThen (.obj [("access_token", .str "")]) alice)
        (initState none homePage)).2.alerts = [(JsVal.str "Успешный вход! 💕", "success")]) ∧
    (netLoginThen (.obj [("access_token", .str "tok123")]) .null (meRequest "tok123") =
        FetchResult.fulfilled { status := 200, body := some JsVal.null } ∧
      (handleLogin (netLoginThen (.obj [("access_token", .str "tok123")]) .null)
        (initState none homePage)).2.authToken = JsVal.null ∧
      (handleLogin (netLoginThen (.obj [("access_token", .str "tok123")]) .null)
        (initState none homePage)).2.storage = none ∧
      (handleLogin (netLoginThen (.obj [("access_token", .str "tok123")]) .null)
        (initState none homePage)).2.currentUser = JsVal.null ∧
      (handleLogin (netLoginThen (.obj [("access_token", .str "tok123")]) .null)
        (initState none homePage)).2.alerts = [(JsVal.str "Успешный вход! 💕", "success")]) ∧
    (netLoginThen (.obj [("access_token", .str "tok123")]) (.obj [("id", unprintable)])
        (meRequest "tok123") =
        FetchResult.fulfilled { status := 200, body := some (.obj [("id", unprintable)]) } ∧
      (handleLogin
        (netLoginThen (.obj [("access_token", .str "tok123")]) (.obj [("id", unprintable)]))
        (initState none homePage)).2.authToken = JsVal.null ∧
      (handleLogin
        (netLoginThen (.obj [("access_token", .str "tok123")]) (.obj [("id", unprintable)]))
        (initState none homePage)).2.storage = none ∧
      (handleLogin
        (netLoginThen (.obj [("access_token", .str "tok123")]) (.obj [("id", unprintable)]))
        (initState none homePage)).2.currentUser = JsVal.null) :=
  ⟨⟨rfl, rfl, rfl, rfl, rfl, rfl⟩, ⟨rfl, rfl, rfl, rfl, rfl⟩, ⟨rfl, rfl, rfl, rfl⟩⟩

/-! ## C7: failed login -/

/-- C7, as the code has it. A failed login attempt (no response, or a response
whose status is not 2xx, with or without a JSON body) leaves token, user and
stored token exactly as they were, and `handleLogin` shows exactly one
notification, of type `error`: the server's `detail` when the body carries a
truthy one that has a string form, a generic fallback text otherwise. -/
theorem handleLogin_failure (net : Net) (s : State) (username password : String)
    (hu : s.dom.loginUsername = some username) (hp : s.dom.loginPassword = some password)
    (hfail : Failed (net (loginRequest username password))) :
    (handleLogin net s).1 = Except.ok () ∧
    SessionUnchanged s (handleLogin net s).2 ∧
    ∃ msg, (handleLogin net s).2.alerts = s.alerts ++ [(msg, "error")] ∧
      (match serverDetail (net (loginRequest username password)) with
        | some detail => msg = detail
        | none => msg = JsVal.str "Ошибка входа" ∨ msg = JsVal.str "Ошибка подключения") := by
  obtain ⟨msg, hrun, hmsg⟩ := handleLogin_failed net s username password hu hp hfail
  rw [hrun]
  refine ⟨rfl, ?_, msg, ?_, hmsg⟩
  · simp [SessionUnchanged, appendAlert, logRequest]
  · simp [appendAlert, logRequest]

/-- A concrete instance, the scenario of the specification: a guest submits
wrong credentials and the login endpoint answers 400 with
`detail: "bad credentials"`. -/
theorem handleLogin_failure_witness :
    (initState none homePage).dom.loginUsername = some "alice" ∧
    (initState none homePage).dom.loginPassword = some "pw" ∧
    Failed (netStatus 400 (some (.obj [("detail", .str "bad credentials")]))
      (loginRequest "alice" "pw")) ∧
    SessionUnchanged (initState none homePage)
      (handleLogin (netStatus 400 (some (.obj [("detail", .str "bad credentials")])))
        (initState none homePage)).2 ∧
    (handleLogin (netStatus 400 (some (.obj [("detail", .str "bad credentials")])))
        (initState none homePage)).2.alerts =
      [(JsVal.str "bad credentials", "error")] :=
  ⟨rfl, rfl, by simp [Failed, netStatus, Response.ok],
   (handleLogin_failure (netStatus 400 (some (.obj [("detail", .str "bad credentials")])))
      (initState none homePage) "alice" "pw" rfl rfl
      (by simp [Failed, netStatus, Response.ok])).2.1,
   rfl⟩

/-- A non-empty `detail` that is not shown: the login endpoint answers 400 with
a `detail` that is an object without a string form. The assignment to
`textContent` throws inside `showAlert`, the `catch` of `handleLogin` runs,
and the one notification shown is the connection error. -/
theorem unprintable_detail_not_shown :
    netStatus 400 (some (.obj [("detail", unprintable)])) (loginRequest "alice" "pw") =
      FetchResult.fulfilled { status := 400, body := some (.obj [("detail", unprintable)]) } ∧
    (JsVal.obj [("detail", unprintable)]).getProp "detail" = Except.ok unprintable ∧
    unprintable.truthy = true ∧
    (handleLogin (netStatus 400 (some (.obj [("detail", unprintable)])))
        (initState none homePage)).2.alerts =
      [(JsVal.str "Ошибка подключения", "error")] :=
  ⟨rfl, rfl, rfl, rfl⟩

/-! ## C8: merged headers -/

/-- C8, as the code has it. For a caller's headers object (distinct keys), the
headers of the request `apiRequest` passes to `fetch` are: under the key
`Authorization`, when a token is present, `Bearer <token>`, also when the
caller supplied that key; under every other key, and under `Authorization`
when no token is present, the caller's value when the caller supplied one;
`application/json` under `Content-Type` when the caller did not supply it;
nothing else. -/
theorem apiRequest_headers (net : Net) (url : String) (options : Options) (s : State)
    (req : Request) (hobj : ((options.headers.getD []).map Prod.fst).Nodup)
    (hreq : apiFetchRequest url options s = Except.ok req) (key : String) :
    (apiRequest net url options s).2.requests = s.requests ++ [req] ∧
    getHeader req.headers key =
      (if key = "Authorization" ∧ s.authToken.truthy = true then
        s.authToken.toJsString.toOption.map (fun bearer => "Bearer " ++ bearer)
      else
        match getHeader (options.headers.getD []) key with
        | some v => some v
        | none => if key = "Content-Type" then some "application/json" else none) := by
  refine ⟨?_, ?_⟩
  · cases hnet : net req with
    | rejected => simp [apiRequest, hreq, hnet, logRequest]
    | fulfilled response =>
      by_cases h : (!response.ok && response.status == 401) = true
      · simp only [apiRequest, hreq, hnet, h, if_true]
        simp [logRequest, logout, updateNavForGuest]
      · simp only [apiRequest, hreq, hnet, h]
        simp [logRequest]
  · cases ht : s.authToken.truthy with
    | true =>
      cases htext : s.authToken.toJsString with
      | error e => simp [apiFetchRequest, apiHeaders, ht, htext] at hreq
      | ok bearer =>
        have hr : req.headers =
            setHeader (spreadHeaders [("Content-Type", "application/json")]
              (options.headers.getD [])) "Authorization" ("Bearer " ++ bearer) := by
          simp only [apiFetchRequest, apiHeaders, ht, htext, if_true] at hreq
          cases hreq
          rfl
        rw [hr]
        simp only [getHeader_setHeader, getHeader_spreadHeaders _ hobj, Except.toOption,
          Option.map]
        by_cases hk : key = "Authorization"
        · simp [hk]
        · have hk2 : ¬ "Authorization" = key := fun h => hk h.symm
          by_cases hc : key = "Content-Type"
          · subst hc
            simp [getHeader]
          · have hc2 : ¬ "Content-Type" = key := fun h => hc h.symm
            simp [hk, hk2, hc, hc2, getHeader]
    | false =>
      have hr : req.headers =
          spreadHeaders [("Content-Type", "application/json")] (options.headers.getD []) := by
        simp only [apiFetchRequest, apiHeaders, ht] at hreq
        cases hreq
        rfl
      rw [hr]
      simp only [Bool.false_eq_true, if_false, and_false, getHeader_spreadHeaders _ hobj]
      by_cases hc : key = "Content-Type"
      · subst hc
        simp [getHeader]
      · have hc2 : ¬ "Content-Type" = key := fun h => hc h.symm
        simp [hc, hc2, getHeader]

/-- A concrete instance: a guest call with a caller-supplied `Content-Type`. -/
theorem apiRequest_headers_witness :
    (((Options.mk (some [("Content-Type", "text/plain")]) none none).headers.getD []).map
      Prod.fst).Nodup ∧
    apiFetchRequest "/api/v1/posts"
        (Options.mk (some [("Content-Type", "text/plain")]) none none)
        (initState none homePage) =
      Except.ok
        { url := "/api/v1/posts"
          method := none
          headers := [("Content-Type", "text/plain")]
          body := none } ∧
    getHeader [("Content-Type", "text/plain")] "Content-Type" = some "text/plain" :=
  ⟨by simp, rfl,
   (apiRequest_headers netDown "/api/v1/posts"
      (Options.mk (some [("Content-Type", "text/plain")]) none none)
      (initState none homePage)
      { url := "/api/v1/posts"
        method := none
        headers := [("Content-Type", "text/plain")]
        body := none }
      (by simp) rfl "Content-Type").2.trans (by decide)⟩

/-- The caller does not win on every key: with a token present, a
caller-supplied `Authorization` header conflicts with the one the gateway
writes, and the value sent is the gateway's, not the caller's. -/
theorem caller_authorization_overwritten :
    aliceSession.authToken = JsVal.str "tok123" ∧
    getHeader ((Options.mk (some [("Authorization", "Basic abc")]) none none).headers.getD [])
      "Authorization" = some "Basic abc" ∧
    apiFetchRequest "/api/v1/posts"
        (Options.mk (some [("Authorization", "Basic abc")]) none none) aliceSession =
      Except.ok
        { url := "/api/v1/posts"
          method := none
          headers := [("Content-Type", "application/json"), ("Authorization", "Bearer tok123")]
          body := none } ∧
    getHeader [("Content-Type", "application/json"), ("Authorization", "Bearer tok123")]
      "Authorization" = some "Bearer tok123" ∧
    getHeader [("Content-Type", "application/json"), ("Authorization", "Bearer tok123")]
      "Authorization" ≠ some "Basic abc" := by
  refine ⟨rfl, by decide, rfl, by decide, by decide⟩

/-! ## C9: registration and the session -/

/-- C9, as the code has it. When the registration endpoint answers 2xx,
`handleRegister` leaves token, user, stored token and navigation exactly as
they were: a guest stays a guest, so registration never authenticates, and an
authenticated session stays authenticated. -/
theorem handleRegister_keeps_session (net : Net) (s : State)
    (email username password : String) (response : Response)
    (he : s.dom.registerEmail = some email) (hu : s.dom.registerUsername = some username)
    (hp : s.dom.registerPassword = some password)
    (hnet : net (registerRequest email username password) = FetchResult.fulfilled response)
    (hok : response.ok = true) :
    SessionUnchanged s (handleRegister net s).2 ∧
    (Guest s → Guest (handleRegister net s).2) ∧
    (Guest s → ¬ Authenticated (handleRegister net s).2) ∧
    (Authenticated s → Authenticated (handleRegister net s).2) ∧
    (handleRegister net s).2.requests =
      s.requests ++ [registerRequest email username password] := by
  obtain ⟨hsess, hreqs⟩ :=
    handleRegister_succeeded net s email username password response he hu hp hnet hok
  obtain ⟨h1, h2, -, -, -, -⟩ := hsess
  refine ⟨handleRegister_session net s, ?_, ?_, ?_, hreqs⟩
  · intro hg
    simpa [Guest, h1, h2] using hg
  · intro hg ha
    simp [Guest, Authenticated, h1, h2] at hg ha
    simp [hg.1] at ha
  · intro ha
    simpa [Authenticated, h1, h2] using ha

/-- A concrete instance: a guest registers and the endpoint answers 201. -/
theorem handleRegister_keeps_session_witness :
    (initState none homePage).dom.registerEmail = some "a@x.com" ∧
    (initState none homePage).dom.registerUsername = some "alice" ∧
    (initState none homePage).dom.registerPassword = some "pw" ∧
    netAlice (registerRequest "a@x.com" "alice" "pw") =
      FetchResult.fulfilled { status := 201, body := some (.obj []) } ∧
    Response.ok { status := 201, body := some (.obj []) } = true ∧
    SessionUnchanged (initState none homePage)
      (handleRegister netAlice (initState none homePage)).2 :=
  ⟨rfl, rfl, rfl, rfl, rfl,
   (handleRegister_keeps_session netAlice (initState none homePage) "a@x.com" "alice" "pw"
      { status := 201, body := some (.obj []) } rfl rfl rfl rfl rfl).1⟩

/-- Registration does not lead to `Guest`: an authenticated user submits the
registration form and the endpoint answers 201; when `handleRegister` finishes
the session still has its token, its user and its stored token, so it is
`Authenticated`, not `Guest`. -/
theorem register_keeps_authenticated :
    Authenticated aliceSession ∧
    netStatus 201 none (registerRequest "a@x.com" "alice" "pw") =
      FetchResult.fulfilled { status := 201, body := none } ∧
    (handleRegister (netStatus 201 none) aliceSession).2.authToken = JsVal.str "tok123" ∧
    (handleRegister (netStatus 201 none) aliceSession).2.currentUser = alice ∧
    (handleRegister (netStatus 201 none) aliceSession).2.storage = some "tok123" ∧
    Authenticated (handleRegister (netStatus 201 none) aliceSession).2 ∧
    ¬ Guest (handleRegister (netStatus 201 none) aliceSession).2 := by
  have h1 : (handleRegister (netStatus 201 none) aliceSession).2.authToken =
      JsVal.str "tok123" := rfl
  have h2 : (handleRegister (netStatus 201 none) aliceSession).2.currentUser = alice := rfl
  refine ⟨by simp [Authenticated, aliceSession, alice, JsVal.truthy, JsVal.isNullish],
    rfl, h1, h2, rfl, ?_, ?_⟩
  · simp [Authenticated, h1, h2, alice, JsVal.truthy, JsVal.isNullish]
  · simp [Guest, h1, h2, alice, JsVal.truthy, JsVal.isNullish]

/-! ## C10: success reported whatever the verification -/

/-- C10, as the code has it. Whenever the login endpoint answers 2xx with a
JSON body other than `null` whose `access_token` has a string form,
`handleLogin` closes the login modal, shows exactly one notification, of type
`success`, and schedules the reload, whatever happens in the verification that
follows; when that verification fails, the session has been torn down by
`logout()` (one redirect to `/`) and the success notification is shown all the
same, with no `error` one. -/
theorem login_2xx_reports_success (net : Net) (s : State)
    (username password text : String) (response : Response) (data token : JsVal)
    (hu : s.dom.loginUsername = some username) (hp : s.dom.loginPassword = some password)
    (hnet : net (loginRequest username password) = FetchResult.fulfilled response)
    (hok : response.ok = true) (hbody : response.body = some data)
    (htok : data.getProp "access_token" = Except.ok token)
    (htext : token.toJsString = Except.ok text) :
    (handleLogin net s).1 = Except.ok () ∧
    (handleLogin net s).2.dom.modals = setActive s.dom.modals "loginModal" false ∧
    isActive (handleLogin net s).2.dom.modals "loginModal" = false ∧
    (handleLogin net s).2.alerts = s.alerts ++ [(JsVal.str "Успешный вход! 💕", "success")] ∧
    (handleLogin net s).2.timers =
      s.timers ++ [(TimerAction.fadeAlert s.alerts.length, 3000),
        (TimerAction.reloadPage, 500)] ∧
    (token.truthy = true → VerifyFails (net (meRequest text)) →
      TornDown s (handleLogin net s).2 ∧
      (handleLogin net s).2.hrefs = s.hrefs ++ ["/"]) := by
  obtain ⟨hres, hsess, hhrefs, hmodals, halerts, htimers⟩ :=
    handleLogin_ok_effects net s username password text response data token hu hp hnet hok
      hbody htok htext
  refine ⟨hres, hmodals, ?_, halerts, htimers, ?_⟩
  · rw [hmodals]
    exact isActive_setActive_false _ _
  · intro htruthy hfails
    have hauth : (afterLogin s username password token text).authToken = token := rfl
    have hcheck : checkAuth net (afterLogin s username password token text) =
        logout (logRequest (meRequest text) (afterLogin s username password token text)) := by
      rcases checkAuth_cases net (afterLogin s username password token text) text
          (by rw [hauth]; exact htruthy) (by rw [hauth]; exact htext) with
        ⟨hout, -⟩ | ⟨r, user, hr, hrok, hb, -, -, -⟩
      · exact hout
      · rw [hr] at hfails
        rcases hfails with hf | hf
        · rw [hrok] at hf
          cases hf
        · rw [hb] at hf
          cases hf
    obtain ⟨g1, g2, g3, g4, g5, g6⟩ := hsess
    rw [hcheck] at g1 g2 g3 g4 g5 g6 hhrefs
    refine ⟨⟨?_, ?_, ?_, ?_, ?_, ?_⟩, ?_⟩
    · rw [g1]; simp [logout, updateNavForGuest]
    · rw [g2]; simp [logout, updateNavForGuest]
    · rw [g3]; simp [logout, updateNavForGuest]
    · rw [g4]; simp [logout, updateNavForGuest]
    · rw [g5]; simp [logout, updateNavForGuest]
    · rw [g6]; simp [logout, updateNavForGuest, logRequest, afterLogin]
    · rw [hhrefs]; simp [logout, updateNavForGuest, logRequest, afterLogin]

/-- A concrete instance: the login endpoint issues a token and the identity
endpoint answers 500, so the verification fails. -/
theorem login_2xx_reports_success_witness :
    (initState none homePage).dom.loginUsername = some "alice" ∧
    (initState none homePage).dom.loginPassword = some "pw" ∧
    netVerifyDown (loginRequest "alice" "pw") =
      FetchResult.fulfilled
        { status := 200, body := some (.obj [("access_token", .str "tok123")]) } ∧
    (JsVal.obj [("access_token", .str "tok123")]).getProp "access_token" =
      Except.ok (JsVal.str "tok123") ∧
    (JsVal.str "tok123").toJsString = Except.ok "tok123" ∧
    VerifyFails (netVerifyDown (meRequest "tok123")) ∧
    (handleLogin netVerifyDown (initState none homePage)).2.storage = none ∧
    (handleLogin netVerifyDown (initState none homePage)).2.hrefs = ["/"] ∧
    (handleLogin netVerifyDown (initState none homePage)).2.alerts =
      [(JsVal.str "Успешный вход! 💕", "success")] :=
  ⟨rfl, rfl, rfl, rfl, rfl, Or.inl rfl, rfl, rfl,
   (login_2xx_reports_success netVerifyDown (initState none homePage) "alice" "pw" "tok123"
      { status := 200, body := some (.obj [("access_token", .str "tok123")]) }
      (.obj [("access_token", .str "tok123")]) (.str "tok123")
      rfl rfl rfl rfl rfl rfl rfl).2.2.2.1⟩

/-- Two 2xx login answers without the success path. With a body that is not
JSON, `response.json()` throws; with an `access_token` that is an object
without a string form, `localStorage.setItem` throws. Either way the `catch`
shows the connection error, the login modal stays open, no `success`
notification is shown and no reload is scheduled; in the second run the token
has already been assigned to `authToken` and nothing is stored. -/
theorem login_ok_without_success :
    (netStatus 200 none (loginRequest "alice" "pw") =
        FetchResult.fulfilled { status := 200, body := none } ∧
      Response.ok { status := 200, body := none } = true ∧
      (handleLogin (netStatus 200 none) (initState none homePage)).2.alerts =
        [(JsVal.str "Ошибка подключения", "error")] ∧
      isActive (handleLogin (netStatus 200 none) (initState none homePage)).2.dom.modals
        "loginModal" = true ∧
      (handleLogin (netStatus 200 none) (initState none homePage)).2.timers =
        [(TimerAction.fadeAlert 0, 3000)]) ∧
    (netStatus 200 (some (.obj [("access_token", unprintable)])) (loginRequest "alice" "pw") =
        FetchResult.fulfilled
          { status := 200, body := some (.obj [("access_token", unprintable)]) } ∧
      (handleLogin (netStatus 200 (some (.obj [("access_token", unprintable)])))
        (initState none homePage)).2.alerts = [(JsVal.str "Ошибка подключения", "error")] ∧
      isActive (handleLogin (netStatus 200 (some (.obj [("access_token", unprintable)])))
        (initState none homePage)).2.dom.modals "loginModal" = true ∧
      (handleLogin (netStatus 200 (some (.obj [("access_token", unprintable)])))
        (initState none homePage)).2.timers = [(TimerAction.fadeAlert 0, 3000)] ∧
      (handleLogin (netStatus 200 (some (.obj [("access_token", unprintable)])))
        (initState none homePage)).2.authToken = unprintable ∧
      (handleLogin (netStatus 200 (some (.obj [("access_token", unprintable)])))
        (initState none homePage)).2.storage = none) :=
  ⟨⟨rfl, rfl, rfl, rfl, rfl⟩, ⟨rfl, rfl, rfl, rfl, rfl, rfl⟩⟩

end BlogSession
